import Mathlib

/-!
MedAI chat widget: query construction and response resolution.

A shallow embedding of `Frontend/script.js` (the fuller of the two copies of the
script; `script.js` is an earlier revision of the same functions).

Modelling conventions.

* A JavaScript string is modelled by a Lean `String`, that is, by a well-formed
  sequence of Unicode scalar values.  Every key of `mockResponses` is ASCII, so a
  code-unit search for a key coincides with a scalar-value search.
* `String.prototype.toLowerCase` is a parameter `toLowerCase : String → String`
  of the functions that call it.  The only fact ever assumed about it is that it
  agrees with ASCII lower-casing on ASCII text (`LowerCaseOnAscii`);
  `asciiLower` is the executable instance used for concrete evaluations.
* Page state (`currentMode`, `selectedCountry`, `profileData`, `patientHistory`,
  `selectedFilters`, the text of the brand field) is passed explicitly.
-/

namespace MedAI

/-! ## Strings -/

/-- The method `Array.prototype.join` on an array of strings. -/
def join (sep : String) : List String → String
  | [] => ""
  | [x] => x
  | x :: y :: rest => x ++ sep ++ join sep (y :: rest)

/-- Search of `needle` at some position of a character list. -/
def listIncludes (needle : List Char) : List Char → Bool
  | [] => needle.isEmpty
  | c :: cs => needle.isPrefixOf (c :: cs) || listIncludes needle cs

/-- The method `String.prototype.includes`: `includes s t` is `s.includes(t)`. -/
def includes (s t : String) : Bool :=
  listIncludes t.data s.data

/-- Lower-casing of one ASCII letter; every other character is kept. -/
def asciiLowerChar (c : Char) : Char :=
  if 65 ≤ c.toNat ∧ c.toNat ≤ 90 then Char.ofNat (c.toNat + 32) else c

/-- ASCII lower-casing of a string: what `toLowerCase` does on ASCII text. -/
def asciiLower (s : String) : String :=
  ⟨s.data.map asciiLowerChar⟩

/-- A string all of whose characters are ASCII. -/
def isAscii (s : String) : Bool :=
  s.data.all (fun c => decide (c.toNat < 128))

/-- The assumption made on the `toLowerCase` parameter: on ASCII text it is ASCII
lower-casing. -/
def LowerCaseOnAscii (toLowerCase : String → String) : Prop :=
  ∀ s : String, isAscii s = true → toLowerCase s = asciiLower s

/-! ## The response dictionary -/

/-- The object literal `mockResponses`, as its own properties in declaration order
(the order in which `Object.entries` enumerates them: no key is an array index). -/
def mockResponses : List (String × String) :=
  [ ("Cold & Cough", "I understand you're experiencing cold and cough symptoms. Common causes include viral infections, allergies, or environmental irritants. Rest, stay hydrated, and consider over-the-counter remedies. If symptoms persist or worsen, please consult a healthcare provider."),
    ("Fever", "Fever is your body's natural response to infection. Monitor your temperature and stay hydrated. If your fever is above 103°F (39.4°C) or persists for more than 3 days, seek medical attention. Rest and over-the-counter fever reducers may help."),
    ("Headache", "Headaches can have various causes including stress, dehydration, or underlying conditions. Ensure you're well-hydrated and getting adequate rest. If headaches are severe, frequent, or accompanied by other symptoms, consult a healthcare professional."),
    ("Body Pain", "Body pain can result from overexertion, inflammation, or underlying medical conditions. Rest, gentle stretching, and over-the-counter pain relievers may help. If pain is severe or persistent, please see a healthcare provider."),
    ("Stomach Pain", "Stomach pain can be caused by various factors including indigestion, food sensitivities, or gastrointestinal issues. Monitor your symptoms and consider dietary changes. If pain is severe, persistent, or accompanied by other symptoms, seek medical care."),
    ("Sore Throat", "A sore throat is often caused by viral infections, allergies, or irritants. Gargling with warm salt water, staying hydrated, and using throat lozenges may provide relief. If symptoms persist or worsen, consult a healthcare provider."),
    ("Fatigue", "Fatigue can be caused by various factors including lack of sleep, stress, or underlying health conditions. Ensure adequate rest, maintain a balanced diet, and stay hydrated. If fatigue is persistent or severe, consult a healthcare professional."),
    ("Nausea", "Nausea can result from various causes including digestive issues, medications, or underlying conditions. Stay hydrated, eat small, bland meals, and avoid triggers. If nausea is severe or persistent, seek medical attention."),
    ("Allergy", "Allergies can cause various symptoms including sneezing, itching, or respiratory issues. Identify and avoid triggers when possible. Over-the-counter antihistamines may help. If symptoms are severe or persistent, consult an allergist or healthcare provider."),
    ("Dizziness", "Dizziness can be caused by dehydration, low blood pressure, inner ear issues, or other conditions. Ensure adequate hydration and avoid sudden movements. If dizziness is severe, persistent, or accompanied by other symptoms, seek medical care."),
    ("I have symptoms", "I'm here to help. Please describe your symptoms in detail, including when they started, their severity, and any other relevant information. This will help me provide better guidance."),
    ("About a medicine", "I can provide general information about medications. Please share the name of the medicine you'd like to know about, and I'll provide educational information. Remember, I cannot replace professional medical advice."),
    ("Is this safe for me?", "To assess safety, I'd need to know about your medical history, current medications, and any allergies. Please share this information, and I can provide general guidance. However, always consult with a healthcare provider for personalized advice.") ]

/-- The text returned by the last statement of `getBotResponse`. -/
def defaultResponse : String :=
  "Thank you for your message. I understand you're seeking medical information. For personalized advice, please consult with a licensed healthcare professional. I can provide general educational information about symptoms and medications."

/-- The property names of `Object.prototype`, the prototype of every object
literal: a property read `obj[name]` that finds no own property continues there. -/
def objectPrototypeNames : List String :=
  [ "constructor", "hasOwnProperty", "isPrototypeOf", "propertyIsEnumerable",
    "toLocaleString", "toString", "valueOf", "__proto__",
    "__defineGetter__", "__defineSetter__", "__lookupGetter__", "__lookupSetter__" ]

/-- The values a property read on `mockResponses` can produce. -/
inductive JSValue where
  /-- A string value. -/
  | str (s : String)
  /-- The member of `Object.prototype` of the given name (a function object; for
  `__proto__`, the prototype object itself). -/
  | inherited (name : String)
  /-- The value `undefined`. -/
  | undefined
  deriving DecidableEq, Repr

/-- The conversion `ToBoolean`: the empty string and `undefined` are falsy, objects
and functions are truthy. -/
def JSValue.truthy : JSValue → Bool
  | .str s => !s.data.isEmpty
  | .inherited _ => true
  | .undefined => false

/-- The property read `obj[name]` on an object literal with string values. -/
def getProperty (obj : List (String × String)) (name : String) : JSValue :=
  match obj.lookup name with
  | some v => .str v
  | none => if objectPrototypeNames.contains name then .inherited name else .undefined

/-- The loop `for (const [key, value] of Object.entries(mockResponses))` of
`getBotResponse`, with the statement after it. -/
def partialMatch (toLowerCase : String → String) (lowerMessage : String) :
    List (String × String) → JSValue
  | [] => .str defaultResponse
  | (key, value) :: rest =>
    if includes lowerMessage (toLowerCase key) then .str value
    else partialMatch toLowerCase lowerMessage rest

/-- The function `getBotResponse(userMessage, structuredQuery = null)`; the second
argument is never read. -/
def getBotResponse (toLowerCase : String → String) (userMessage : String) : JSValue :=
  if (getProperty mockResponses userMessage).truthy then
    getProperty mockResponses userMessage
  else
    let lowerMessage := toLowerCase userMessage
    partialMatch toLowerCase lowerMessage mockResponses


/-! ## Page state and the structured query -/

/-- The characters removed by `String.prototype.trim` (and skipped by `parseInt`):
the white space and line terminator code points of ECMAScript. -/
def isJSWhiteSpace (c : Char) : Bool :=
  let n := c.toNat
  n = 0x09 || n = 0x0A || n = 0x0B || n = 0x0C || n = 0x0D || n = 0x20 || n = 0xA0 ||
    n = 0x1680 || (0x2000 ≤ n && n ≤ 0x200A) || n = 0x2028 || n = 0x2029 ||
    n = 0x202F || n = 0x205F || n = 0x3000 || n = 0xFEFF

/-- The method `String.prototype.trim`. -/
def trim (s : String) : String :=
  ⟨((s.data.dropWhile isJSWhiteSpace).reverse.dropWhile isJSWhiteSpace).reverse⟩

/-- Upper-case hexadecimal digit of a value below 16. -/
def hexDigit (n : Nat) : Char :=
  if n < 10 then Char.ofNat (48 + n) else Char.ofNat (55 + n)

/-- The UTF-8 octets of a Unicode scalar value. -/
def utf8Octets (c : Char) : List Nat :=
  let n := c.toNat
  if n < 0x80 then [n]
  else if n < 0x800 then [0xC0 + n / 64, 0x80 + n % 64]
  else if n < 0x10000 then [0xE0 + n / 4096, 0x80 + n / 64 % 64, 0x80 + n % 64]
  else [0xF0 + n / 262144, 0x80 + n / 4096 % 64, 0x80 + n / 64 % 64, 0x80 + n % 64]

/-- The characters `encodeURIComponent` leaves as they are: ASCII letters, digits
and `- _ . ! ~ * ' ( )`. -/
def isUriUnreserved (c : Char) : Bool :=
  let n := c.toNat
  (65 ≤ n && n ≤ 90) || (97 ≤ n && n ≤ 122) || (48 ≤ n && n ≤ 57) ||
    n = 45 || n = 95 || n = 46 || n = 33 || n = 126 || n = 42 || n = 39 || n = 40 || n = 41

/-- The escape of one character by `encodeURIComponent`. -/
def encodeChar (c : Char) : List Char :=
  if isUriUnreserved c then [c]
  else (utf8Octets c).flatMap fun b => ['%', hexDigit (b / 16), hexDigit (b % 16)]

/-- The function `encodeURIComponent` on a well-formed string. -/
def encodeURIComponent (s : String) : String :=
  ⟨s.data.flatMap encodeChar⟩

/-- The conversion of an integer-valued number to a string, as in a template
literal: the decimal numeral, which is what JavaScript prints for an integer of
magnitude below 10^21 (a stored age is at most 150). -/
def numberToString (n : Int) : String :=
  match n with
  | .ofNat m => Nat.repr m
  | .negSucc m => "-" ++ Nat.repr (m + 1)

/-- The object `profileData`; `age` is `null` or a number. -/
structure ProfileData where
  age : Option Int
  sex : String
  country : String
  deriving DecidableEq, Repr

/-- The object `patientHistory`. -/
structure PatientHistory where
  allergies : List String
  chronicConditions : List String
  pregnancyStatus : Bool
  deriving DecidableEq, Repr

/-- The object `selectedFilters`. -/
structure SelectedFilters where
  category : List String
  context : List String
  deriving DecidableEq, Repr

/-- The page state read by `buildStructuredQuery`: the module variables and the
text of the `medicineBrand` field. -/
structure Page where
  currentMode : String
  selectedCountry : String
  profileData : ProfileData
  patientHistory : PatientHistory
  selectedFilters : SelectedFilters
  medicineBrandValue : String
  deriving DecidableEq, Repr

/-- The state at page load. -/
def initialPage : Page :=
  { currentMode := "simple"
    selectedCountry := "Global"
    profileData := { age := none, sex := "", country := "Global" }
    patientHistory := { allergies := [], chronicConditions := [], pregnancyStatus := false }
    selectedFilters := { category := [], context := [] }
    medicineBrandValue := "" }

/-- The `profile` field of the structured query. -/
structure QueryProfile where
  age : Option Int
  sex : Option String
  country : String
  deriving DecidableEq, Repr

/-- The `patientHistory` field of the structured query, when it is an object. -/
structure QueryHistory where
  allergies : Option (List String)
  chronicConditions : Option (List String)
  pregnancyStatus : Option Bool
  deriving DecidableEq, Repr

/-- The `filters` field of the structured query. -/
structure QueryFilters where
  medicineBrand : Option String
  drugCategory : Option (List String)
  context : Option (List String)
  deriving DecidableEq, Repr

/-- The object `structuredQuery`; `none` stands for `null`. -/
structure StructuredQuery where
  userMessage : String
  contextualMessage : String
  mode : String
  country : String
  profile : QueryProfile
  patientHistory : Option QueryHistory
  filters : QueryFilters
  deriving DecidableEq, Repr

/-- The object returned by `buildStructuredQuery`. -/
structure QueryData where
  structured : StructuredQuery
  queryString : String
  deriving DecidableEq, Repr

/-- The test `profileData.age !== null && profileData.age > 0`. -/
def hasAge (p : ProfileData) : Bool :=
  match p.age with
  | some a => decide (0 < a)
  | none => false

/-- The array `profileParts` after its two conditional pushes. -/
def profileParts (p : ProfileData) : List String :=
  (match p.age with
    | some a => if 0 < a then ["age: " ++ numberToString a] else []
    | none => []) ++
  (if p.sex ≠ "" then ["sex: " ++ p.sex] else [])

/-- The array `contextParts` after its three conditional pushes. -/
def contextParts (h : PatientHistory) : List String :=
  (if h.allergies.length > 0 then ["Known allergies: " ++ join ", " h.allergies] else []) ++
  (if h.chronicConditions.length > 0 ∧ ¬ h.chronicConditions.contains "None" then
    ["Chronic conditions: " ++ join ", " h.chronicConditions] else []) ++
  (if h.pregnancyStatus then ["Pregnancy status: Yes"] else [])

/-- The function `buildStructuredQuery(userMessage)`. -/
def buildStructuredQuery (pg : Page) (userMessage : String) : QueryData :=
  let medicineBrand := trim pg.medicineBrandValue
  -- country context
  let contextualMessage :=
    if pg.selectedCountry ≠ "" ∧ pg.selectedCountry ≠ "Global" then
      "Provide educational medical information based on medicines commonly used in "
        ++ pg.selectedCountry ++ ". " ++ userMessage
    else userMessage
  -- profile context
  let hasProfileContext := hasAge pg.profileData || decide (pg.profileData.sex ≠ "")
  let contextualMessage :=
    if hasProfileContext ∧ (profileParts pg.profileData).length > 0 then
      "User has reported " ++ join ", " (profileParts pg.profileData)
        ++ ". Use this only to tailor educational safety information. " ++ contextualMessage
    else contextualMessage
  -- medical context
  let hasMedicalContext :=
    decide (pg.patientHistory.allergies.length > 0) ||
      decide (pg.patientHistory.chronicConditions.length > 0) ||
      pg.patientHistory.pregnancyStatus
  let contextualMessage :=
    if hasMedicalContext ∧ (contextParts pg.patientHistory).length > 0 then
      "The user has reported the following medical context: "
        ++ join "; " (contextParts pg.patientHistory)
        ++ ". Provide educational information and avoid mentioning medicines that may conflict. "
        ++ contextualMessage
    else contextualMessage
  let structuredQuery : StructuredQuery :=
    { userMessage := userMessage
      contextualMessage := contextualMessage
      mode := pg.currentMode
      country := pg.selectedCountry
      profile :=
        { age := match pg.profileData.age with
            | some a => if a = 0 then none else some a
            | none => none
          sex := if pg.profileData.sex ≠ "" then some pg.profileData.sex else none
          country := if pg.profileData.country ≠ "" then pg.profileData.country
            else pg.selectedCountry }
      patientHistory :=
        if hasMedicalContext then
          some
            { allergies :=
                if pg.patientHistory.allergies.length > 0 then some pg.patientHistory.allergies
                else none
              chronicConditions :=
                if pg.patientHistory.chronicConditions.length > 0 ∧
                    ¬ pg.patientHistory.chronicConditions.contains "None" then
                  some pg.patientHistory.chronicConditions
                else none
              pregnancyStatus := if pg.patientHistory.pregnancyStatus then some true else none }
        else none
      filters :=
        { medicineBrand := if medicineBrand ≠ "" then some medicineBrand else none
          drugCategory :=
            if pg.selectedFilters.category.length > 0 then some pg.selectedFilters.category
            else none
          context :=
            if pg.selectedFilters.context.length > 0 then some pg.selectedFilters.context
            else none } }
  let queryString :=
    "userMessage=" ++ encodeURIComponent userMessage ++ "&mode=" ++ pg.currentMode
      ++ "&country=" ++ encodeURIComponent pg.selectedCountry
  let queryString :=
    if medicineBrand ≠ "" then
      queryString ++ "&medicineBrand=" ++ encodeURIComponent medicineBrand
    else queryString
  let queryString :=
    if pg.selectedFilters.category.length > 0 then
      queryString ++ "&category=" ++ encodeURIComponent (join "," pg.selectedFilters.category)
    else queryString
  let queryString :=
    if pg.selectedFilters.context.length > 0 then
      queryString ++ "&context=" ++ encodeURIComponent (join "," pg.selectedFilters.context)
    else queryString
  { structured := structuredQuery, queryString := queryString }

/-- The page of the ordering example: country India, age 30, one allergy. -/
def indiaPage : Page :=
  { initialPage with
    selectedCountry := "India"
    profileData := { age := some 30, sex := "", country := "India" }
    patientHistory :=
      { allergies := ["penicillin"], chronicConditions := [], pregnancyStatus := false } }

/-- A page whose history holds only the sentinel chronic condition `None`. -/
def sentinelPage : Page :=
  { initialPage with
    patientHistory := { allergies := [], chronicConditions := ["None"], pregnancyStatus := false } }

/-! ## Age coercion -/

/-- A decimal digit character. -/
def isDigit (c : Char) : Bool :=
  48 ≤ c.toNat && c.toNat ≤ 57

/-- The value of a decimal digit character. -/
def digitValue (c : Char) : Nat :=
  c.toNat - 48

/-- The character of a decimal digit value. -/
def digitChar (d : Nat) : Char :=
  Char.ofNat (48 + d)

/-- The call `parseInt(s, 10)`; `none` is `NaN`.  Leading white space is skipped,
one sign is read, then the longest run of decimal digits; what follows the digits
is ignored, and no digit at all gives `NaN`. -/
def parseInt10 (s : String) : Option Int :=
  match s.data.dropWhile isJSWhiteSpace with
  | [] => none
  | c :: rest =>
    let sign : Int := if c = '-' then -1 else 1
    let body := if c = '-' ∨ c = '+' then rest else c :: rest
    let digits := body.takeWhile isDigit
    if digits.isEmpty then none
    else some (sign * ((digits.foldl (fun acc d => acc * 10 + digitValue d) 0 : Nat) : Int))

/-- The function `validateAgeInput(input)`: from the text of the field and
`profileData` to the new text of the field and the new `profileData`. -/
def validateAgeInput (inputValue : String) (pd : ProfileData) : String × ProfileData :=
  let value := trim inputValue
  if value = "" then (inputValue, { pd with age := none })
  else
    match parseInt10 value with
    | none => ("", { pd with age := none })
    | some age =>
      if age < 1 ∨ age > 150 then ("", { pd with age := none })
      else (inputValue, { pd with age := some age })

/-! ## The resolver with its second parameter, and the sender -/

/-- The function `getBotResponse(userMessage, structuredQuery = null)` with its
second parameter written out; the body is the one of `getBotResponse` and has no
occurrence of `structuredQuery`. -/
def getBotResponseWithQuery (toLowerCase : String → String) (userMessage : String)
    (_structuredQuery : Option StructuredQuery) : JSValue :=
  if (getProperty mockResponses userMessage).truthy then
    getProperty mockResponses userMessage
  else
    let lowerMessage := toLowerCase userMessage
    partialMatch toLowerCase lowerMessage mockResponses

/-- What a run of `sendMessage` does, in program order. -/
inductive Effect where
  /-- The call `buildStructuredQuery(message)` and its result. -/
  | buildQuery (queryData : QueryData)
  /-- The call `addUserMessage(displayMessage)`. -/
  | addUserMessage (displayMessage : String)
  /-- The assignment `userInput.value = text`. -/
  | setInputValue (text : String)
  /-- The timer that shows the typing indicator after `delay` milliseconds. -/
  | scheduleTypingIndicator (delay : Nat)
  /-- The timer whose callback calls `addBotMessage` on the value of
  `getBotResponse(message, queryData.structured)`; its random delay is left out. -/
  | scheduleBotMessage (botResponse : JSValue)
  deriving DecidableEq, Repr

/-- The text shown for the user message in `sendMessage`: in advanced mode the
selected country and filters are appended in brackets. -/
def displayMessage (pg : Page) (message : String) (queryData : QueryData) : String :=
  if pg.currentMode = "advanced" then
    let filters : List String :=
      (if pg.selectedCountry ≠ "" ∧ pg.selectedCountry ≠ "Global" then
        ["Country: " ++ pg.selectedCountry] else []) ++
      (match queryData.structured.filters.medicineBrand with
        | some b => if b ≠ "" then ["Brand: " ++ b] else []
        | none => []) ++
      (match queryData.structured.filters.drugCategory with
        | some cs => ["Category: " ++ join ", " cs]
        | none => []) ++
      (match queryData.structured.filters.context with
        | some cs => ["Context: " ++ join ", " cs]
        | none => [])
    if filters.length > 0 then message ++ " [" ++ join " | " filters ++ "]" else message
  else message

/-- The function `sendMessage()`: from the page state and the text of the input
box to the effects performed, in order. -/
def sendMessage (toLowerCase : String → String) (pg : Page) (userInputValue : String) :
    List Effect :=
  let message := trim userInputValue
  if message = "" then []
  else
    let queryData := buildStructuredQuery pg message
    [ .buildQuery queryData,
      .addUserMessage (displayMessage pg message queryData),
      .setInputValue "",
      .scheduleTypingIndicator 300,
      .scheduleBotMessage
        (getBotResponseWithQuery toLowerCase message (some queryData.structured)) ]

/-! ## The builder as a stateful script

A second translation of `buildStructuredQuery`, statement by statement, in a state
monad over everything a script statement can read or change: the page state and
the two ambient sources of non-determinism of a script.  A read of a module
variable is a `get`; an assignment to one would be a `set`. -/

/-- What a statement of the script can read or change: the page state, the
outcomes that the next calls of `Math.random()` will draw, and the clock read by
`Date.now()`. -/
structure World where
  page : Page
  randoms : List Nat
  clock : Nat
  deriving DecidableEq, Repr

/-- The call `Math.random()`: it draws the next pending outcome. -/
def mathRandom : StateM World Nat := fun w =>
  match w.randoms with
  | [] => (0, w)
  | r :: rest => (r, { w with randoms := rest })

/-- The call `Date.now()`: it reads the clock, which then moves on. -/
def dateNow : StateM World Nat := fun w =>
  (w.clock, { w with clock := w.clock + 1 })

/-- The statements of `buildStructuredQuery` that add the country context. -/
def countryContextM (userMessage : String) : StateM World String := do
  let mut contextualMessage := userMessage
  if (← get).page.selectedCountry ≠ "" ∧ (← get).page.selectedCountry ≠ "Global" then
    contextualMessage :=
      "Provide educational medical information based on medicines commonly used in "
        ++ (← get).page.selectedCountry ++ ". " ++ userMessage
  return contextualMessage

/-- The statements of `buildStructuredQuery` that add the profile context. -/
def profileContextM (contextualMessage : String) : StateM World String := do
  let mut contextualMessage := contextualMessage
  let hasProfileContext :=
    hasAge (← get).page.profileData || decide ((← get).page.profileData.sex ≠ "")
  if hasProfileContext then
    let mut profileParts : List String := []
    match (← get).page.profileData.age with
    | some age =>
      if 0 < age then
        profileParts := profileParts ++ ["age: " ++ numberToString age]
    | none => pure ()
    if (← get).page.profileData.sex ≠ "" then
      profileParts := profileParts ++ ["sex: " ++ (← get).page.profileData.sex]
    if profileParts.length > 0 then
      contextualMessage := "User has reported " ++ join ", " profileParts
        ++ ". Use this only to tailor educational safety information. " ++ contextualMessage
  return contextualMessage

/-- The statements of `buildStructuredQuery` that fill the array `contextParts`. -/
def contextPartsM : StateM World (List String) := do
  let mut contextParts : List String := []
  if (← get).page.patientHistory.allergies.length > 0 then
    contextParts := contextParts ++
      ["Known allergies: " ++ join ", " (← get).page.patientHistory.allergies]
  if (← get).page.patientHistory.chronicConditions.length > 0 ∧
      ¬ (← get).page.patientHistory.chronicConditions.contains "None" then
    contextParts := contextParts ++
      ["Chronic conditions: " ++ join ", " (← get).page.patientHistory.chronicConditions]
  if (← get).page.patientHistory.pregnancyStatus then
    contextParts := contextParts ++ ["Pregnancy status: Yes"]
  return contextParts

/-- The statements of `buildStructuredQuery` that add the medical context; the
result carries `hasMedicalContext`, which the object literal reads again. -/
def medicalContextM (contextualMessage : String) : StateM World (String × Bool) := do
  let mut contextualMessage := contextualMessage
  let hasMedicalContext :=
    decide ((← get).page.patientHistory.allergies.length > 0) ||
      decide ((← get).page.patientHistory.chronicConditions.length > 0) ||
      (← get).page.patientHistory.pregnancyStatus
  if hasMedicalContext then
    let contextParts ← contextPartsM
    if contextParts.length > 0 then
      contextualMessage := "The user has reported the following medical context: "
        ++ join "; " contextParts
        ++ ". Provide educational information and avoid mentioning medicines that may conflict. "
        ++ contextualMessage
  return (contextualMessage, hasMedicalContext)

/-- The statements of `buildStructuredQuery` that build the query string. -/
def queryStringM (userMessage medicineBrand : String) : StateM World String := do
  let mut queryString :=
    "userMessage=" ++ encodeURIComponent userMessage ++ "&mode=" ++ (← get).page.currentMode
      ++ "&country=" ++ encodeURIComponent (← get).page.selectedCountry
  if medicineBrand ≠ "" then
    queryString := queryString ++ "&medicineBrand=" ++ encodeURIComponent medicineBrand
  if (← get).page.selectedFilters.category.length > 0 then
    queryString := queryString ++ "&category="
      ++ encodeURIComponent (join "," (← get).page.selectedFilters.category)
  if (← get).page.selectedFilters.context.length > 0 then
    queryString := queryString ++ "&context="
      ++ encodeURIComponent (join "," (← get).page.selectedFilters.context)
  return queryString

/-- The function `buildStructuredQuery(userMessage)` as a script over the world. -/
def buildStructuredQueryM (userMessage : String) : StateM World QueryData := do
  let medicineBrand := trim (← get).page.medicineBrandValue
  let contextualMessage ← countryContextM userMessage
  let contextualMessage ← profileContextM contextualMessage
  let (contextualMessage, hasMedicalContext) ← medicalContextM contextualMessage
  -- the object literal reads the module variables
  let pg := (← get).page
  let structuredQuery : StructuredQuery :=
    { userMessage := userMessage
      contextualMessage := contextualMessage
      mode := pg.currentMode
      country := pg.selectedCountry
      profile :=
        { age := match pg.profileData.age with
            | some a => if a = 0 then none else some a
            | none => none
          sex := if pg.profileData.sex ≠ "" then some pg.profileData.sex else none
          country := if pg.profileData.country ≠ "" then pg.profileData.country
            else pg.selectedCountry }
      patientHistory :=
        if hasMedicalContext then
          some
            { allergies :=
                if pg.patientHistory.allergies.length > 0 then some pg.patientHistory.allergies
                else none
              chronicConditions :=
                if pg.patientHistory.chronicConditions.length > 0 ∧
                    ¬ pg.patientHistory.chronicConditions.contains "None" then
                  some pg.patientHistory.chronicConditions
                else none
              pregnancyStatus := if pg.patientHistory.pregnancyStatus then some true else none }
        else none
      filters :=
        { medicineBrand := if medicineBrand ≠ "" then some medicineBrand else none
          drugCategory :=
            if pg.selectedFilters.category.length > 0 then some pg.selectedFilters.category
            else none
          context :=
            if pg.selectedFilters.context.length > 0 then some pg.selectedFilters.context
            else none } }
  let queryString ← queryStringM userMessage medicineBrand
  return { structured := structuredQuery, queryString := queryString }

/-- The flat serialization of a structured query, in the words of the
specification: `userMessage`, `mode`, `country`, then one segment for each
non-null filter field, lists joined by commas. -/
def queryStringOfStructured (q : StructuredQuery) : String :=
  "userMessage=" ++ encodeURIComponent q.userMessage ++ "&mode=" ++ q.mode
    ++ "&country=" ++ encodeURIComponent q.country
    ++ (match q.filters.medicineBrand with
        | some b => "&medicineBrand=" ++ encodeURIComponent b
        | none => "")
    ++ (match q.filters.drugCategory with
        | some cs => "&category=" ++ encodeURIComponent (join "," cs)
        | none => "")
    ++ (match q.filters.context with
        | some cs => "&context=" ++ encodeURIComponent (join "," cs)
        | none => "")

/-! ## The three clauses, named

The texts that `buildStructuredQuery` prepends, each as a function of the piece of
state it reads; they serve to state the shape of the contextual message. -/

/-- The country clause, or the empty string when none is added. -/
def countryClause (country : String) : String :=
  if country ≠ "" ∧ country ≠ "Global" then
    "Provide educational medical information based on medicines commonly used in "
      ++ country ++ ". "
  else ""

/-- The profile clause, or the empty string when none is added. -/
def profileClause (p : ProfileData) : String :=
  if (hasAge p || decide (p.sex ≠ "")) = true ∧ (profileParts p).length > 0 then
    "User has reported " ++ join ", " (profileParts p)
      ++ ". Use this only to tailor educational safety information. "
  else ""

/-- The medical-history clause, or the empty string when none is added. -/
def medicalClause (h : PatientHistory) : String :=
  if (decide (h.allergies.length > 0) || decide (h.chronicConditions.length > 0) ||
      h.pregnancyStatus) = true ∧ (contextParts h).length > 0 then
    "The user has reported the following medical context: " ++ join "; " (contextParts h)
      ++ ". Provide educational information and avoid mentioning medicines that may conflict. "
  else ""

/-! ## Chip toggling -/

/-- The first argument of `toggleFilter`: a key of `selectedFilters`. -/
inductive FilterType where
  | category
  | context
  deriving DecidableEq, Repr

/-- The array `selectedFilters[filterType]`. -/
def SelectedFilters.get (sf : SelectedFilters) : FilterType → List String
  | .category => sf.category
  | .context => sf.context

/-- The array `selectedFilters[filterType]` replaced. -/
def SelectedFilters.set (sf : SelectedFilters) (t : FilterType) (l : List String) :
    SelectedFilters :=
  match t with
  | .category => { sf with category := l }
  | .context => { sf with context := l }

/-- The function `toggleFilter(filterType, value)`; `isSelected` is the class test
on the clicked button.  `indexOf` with `splice(index, 1)` removes the first
occurrence, `push` appends. -/
def toggleFilter (filterType : FilterType) (value : String) (isSelected : Bool)
    (sf : SelectedFilters) : SelectedFilters :=
  if isSelected then
    sf.set filterType ((sf.get filterType).erase value)
  else if ¬ (sf.get filterType).contains value then
    sf.set filterType (sf.get filterType ++ [value])
  else sf

/-- The chronic-condition part of the page: the array
`patientHistory.chronicConditions` and the `data-condition` values of the chips
that carry the class `selected`. -/
structure ConditionPanel where
  chronicConditions : List String
  selectedChips : List String
  deriving DecidableEq, Repr

/-- The method `classList.add('selected')` on the chip of a condition. -/
def selectChip (l : List String) (condition : String) : List String :=
  if l.contains condition then l else l ++ [condition]

/-- The method `classList.remove('selected')` on the chip of a condition. -/
def deselectChip (l : List String) (condition : String) : List String :=
  l.filter fun c => c ≠ condition

/-- The function `toggleChronicCondition(condition)`.  `chips` lists the
`data-condition` values present in the page; every such chip is taken to carry the
class `profile-condition-chip`, so that the clearing loop reaches all of them. -/
def toggleChronicCondition (chips : List String) (condition : String)
    (st : ConditionPanel) : ConditionPanel :=
  if ¬ chips.contains condition then st
  else
    let isSelected := st.selectedChips.contains condition
    if condition = "None" then
      if ¬ isSelected then
        { chronicConditions := ["None"], selectedChips := selectChip [] "None" }
      else
        { chronicConditions := [], selectedChips := deselectChip st.selectedChips "None" }
    else
      let st1 : ConditionPanel :=
        if chips.contains "None" ∧ st.selectedChips.contains "None" then
          { chronicConditions := st.chronicConditions.filter fun c => c ≠ "None"
            selectedChips := deselectChip st.selectedChips "None" }
        else st
      if isSelected then
        { chronicConditions := st1.chronicConditions.filter fun c => c ≠ condition
          selectedChips := deselectChip st1.selectedChips condition }
      else
        { chronicConditions :=
            if ¬ st1.chronicConditions.contains condition then
              st1.chronicConditions ++ [condition]
            else st1.chronicConditions
          selectedChips := selectChip st1.selectedChips condition }

/-- The chronic-condition part of the page at load. -/
def initialConditionPanel : ConditionPanel :=
  { chronicConditions := [], selectedChips := [] }

/-- A sequence of `toggleFilter` calls, each with its filter type, its value and
the class test of the clicked button, run from a given selection. -/
def runToggleFilter (calls : List (FilterType × String × Bool)) (sf : SelectedFilters) :
    SelectedFilters :=
  calls.foldl (fun acc c => toggleFilter c.1 c.2.1 c.2.2 acc) sf

/-- A sequence of `toggleChronicCondition` calls run from a given panel state. -/
def runToggleChronicCondition (chips : List String) (calls : List String)
    (st : ConditionPanel) : ConditionPanel :=
  calls.foldl (fun acc c => toggleChronicCondition chips c acc) st

/-- The invariant of the chronic-condition panel: no duplicate condition, a chip is
selected exactly when its condition is recorded, `None` is recorded alone, and
every recorded condition has a chip. -/
def ConditionPanel.Consistent (chips : List String) (st : ConditionPanel) : Prop :=
  st.chronicConditions.Nodup ∧
    (∀ x, x ∈ st.selectedChips ↔ x ∈ st.chronicConditions) ∧
    ("None" ∈ st.chronicConditions → st.chronicConditions = ["None"]) ∧
    (∀ x ∈ st.chronicConditions, x ∈ chips)

/-- A page with two drug categories selected in the given order. -/
def categoryPage (first second : String) : Page :=
  { initialPage with selectedFilters := { category := [first, second], context := [] } }

/-! ## Medicine equivalents, allergies, profile update, problem buttons -/

/-- The template `responses['Paracetamol']` of `generateMockEquivalentResponse`. -/
def paracetamolResponse (fromCountry toCountry medicineName : String) : String :=
  "Educational Reference Information:\n\n"
    ++ medicineName
    ++ " (commonly known as Paracetamol or Acetaminophen) is widely used in "
    ++ fromCountry
    ++ " for pain relief and fever reduction.\n\nIn "
    ++ toCountry
    ++ ", medicines with the same active ingredient (acetaminophen) are commonly available under various brand names. These medicines serve the same therapeutic purpose and contain the same active ingredient.\n\nCommon brand names in "
    ++ toCountry
    ++ " may include formulations containing acetaminophen/paracetamol. The active ingredient works the same way regardless of the brand name.\n\nImportant Educational Note: This information is for educational reference only. Different countries may have varying formulations, strengths, and availability. Always consult with a licensed healthcare professional in your country for appropriate medical guidance."

/-- The template `responses['Ibuprofen']` of `generateMockEquivalentResponse`. -/
def ibuprofenResponse (fromCountry toCountry medicineName : String) : String :=
  "Educational Reference Information:\n\n"
    ++ medicineName
    ++ " (Ibuprofen) is commonly used in "
    ++ fromCountry
    ++ " as a nonsteroidal anti-inflammatory drug (NSAID) for pain, inflammation, and fever.\n\nIn "
    ++ toCountry
    ++ ", medicines containing ibuprofen as the active ingredient are available under various brand names. These medicines have the same therapeutic purpose and active ingredient.\n\nCommon formulations in "
    ++ toCountry
    ++ " may include ibuprofen tablets, capsules, or liquid forms. The active ingredient provides the same therapeutic effect regardless of the brand.\n\nImportant Educational Note: This information is for educational reference only. Formulations, dosages, and availability may vary by country. Consult a licensed healthcare professional for appropriate medical advice."

/-- The template `responses['default']` of `generateMockEquivalentResponse`. -/
def defaultEquivalentResponse (fromCountry toCountry medicineName : String) : String :=
  "Educational Reference Information:\n\n"
    ++ medicineName
    ++ " is commonly used in "
    ++ fromCountry
    ++ " for therapeutic purposes.\n\nIn "
    ++ toCountry
    ++ ", medicines with the same active ingredient or therapeutic purpose as "
    ++ medicineName
    ++ " may be available under different brand names. These medicines serve similar therapeutic functions.\n\nThe active ingredient or therapeutic mechanism remains the same, though brand names, formulations, and availability may differ between countries.\n\nImportant Educational Note: This information is for educational reference only. Medicine availability, formulations, and regulations vary by country. Always consult with a licensed healthcare professional in your country for appropriate medical guidance."

/-- The function `generateMockEquivalentResponse(fromCountry, toCountry,
medicineName)`. -/
def generateMockEquivalentResponse (toLowerCase : String → String)
    (fromCountry toCountry medicineName : String) : String :=
  let medicineLower := toLowerCase medicineName
  if includes medicineLower "paracetamol" || includes medicineLower "acetaminophen" then
    paracetamolResponse fromCountry toCountry medicineName
  else if includes medicineLower "ibuprofen" then
    ibuprofenResponse fromCountry toCountry medicineName
  else
    defaultEquivalentResponse fromCountry toCountry medicineName

/-- The function `addAllergy()` on the array `patientHistory.allergies`;
`inputValue` is the text of the allergy field. -/
def addAllergy (inputValue : String) (allergies : List String) : List String :=
  let allergy := trim inputValue
  if allergy = "" then allergies
  else if allergies.contains allergy then allergies
  else allergies ++ [allergy]

/-- The function `removeAllergy(allergy)` on the array `patientHistory.allergies`:
`indexOf` with `splice(index, 1)` removes the first occurrence. -/
def removeAllergy (allergy : String) (allergies : List String) : List String :=
  allergies.erase allergy

/-- A call of `addAllergy` with the text of the field, or of `removeAllergy` with
its argument. -/
inductive AllergyCall where
  | add (inputValue : String)
  | remove (allergy : String)
  deriving DecidableEq, Repr

/-- A sequence of allergy calls run from a given list. -/
def runAllergyCalls (calls : List AllergyCall) (allergies : List String) : List String :=
  calls.foldl (fun acc c =>
    match c with
    | .add t => addAllergy t acc
    | .remove a => removeAllergy a acc) allergies

/-- The function `updateProfileData()`.  `ageInputValue` is the text of the age
field (`none` when the element is missing), `checkedSex` the value of the checked
radio button, if any. -/
def updateProfileData (ageInputValue : Option String) (checkedSex : Option String)
    (selectedCountry : String) (pd : ProfileData) : ProfileData :=
  let pd1 : ProfileData :=
    match ageInputValue with
    | none => pd
    | some v =>
      let ageValue := trim v
      if ageValue = "" then { pd with age := none }
      else
        match parseInt10 ageValue with
        | some age => if age > 0 ∧ age ≤ 150 then { pd with age := some age }
          else { pd with age := none }
        | none => { pd with age := none }
  let pd2 : ProfileData :=
    match checkedSex with
    | some s => { pd1 with sex := s }
    | none => { pd1 with sex := "" }
  { pd2 with country := selectedCountry }

/-- The message that `sendProblemMessage(problem)` displays. -/
def problemMessage (toLowerCase : String → String) (problem : String) : String :=
  "I'm experiencing " ++ toLowerCase problem ++ ". Can you help?"

/-- The function `sendProblemMessage(problem)`, as the effects it performs: the
displayed message is built from the lower-cased problem, the answer is resolved
from the problem itself. -/
def sendProblemMessage (toLowerCase : String → String) (problem : String) : List Effect :=
  [ .addUserMessage (problemMessage toLowerCase problem),
    .scheduleTypingIndicator 300,
    .scheduleBotMessage (getBotResponseWithQuery toLowerCase problem none) ]

/-- The resolver without its exact-match step: the case-insensitive substring scan
in declaration order, then the fallback. -/
def scanOnlyResponse (toLowerCase : String → String) (userMessage : String) : JSValue :=
  partialMatch toLowerCase (toLowerCase userMessage) mockResponses

/-- The text `x` occurs verbatim in the text `s`. -/
def Embeds (x s : String) : Prop :=
  ∃ pre post : String, s = pre ++ x ++ post

/-! ## Facts about the dictionary and the string helpers -/

theorem isPrefixOf_self (l : List Char) : l.isPrefixOf l = true := by
  induction l with
  | nil => rfl
  | cons c cs ih => simp [List.isPrefixOf, ih]

theorem listIncludes_self (l : List Char) : listIncludes l l = true := by
  cases l with
  | nil => rfl
  | cons c cs => simp [listIncludes, isPrefixOf_self]

theorem includes_self (s : String) : includes s s = true :=
  listIncludes_self s.data

theorem lowerCaseOnAscii_asciiLower : LowerCaseOnAscii asciiLower :=
  fun _ _ => rfl

theorem lookup_eq_none_of_not_key {obj : List (String × String)} {name : String}
    (h : ∀ kv ∈ obj, name ≠ kv.1) : obj.lookup name = none := by
  induction obj with
  | nil => rfl
  | cons kv rest ih =>
    obtain ⟨k, v⟩ := kv
    have hk : name ≠ k := h (k, v) (List.mem_cons_self _ _)
    have hb : (name == k) = false := by simpa using hk
    simp only [List.lookup, hb]
    exact ih (fun p hp => h p (List.mem_cons_of_mem _ hp))

/-- Every key and every `Object.prototype` name is ASCII. -/
theorem names_ascii :
    (mockResponses.all fun kv => isAscii kv.1) = true ∧
      (objectPrototypeNames.all isAscii) = true :=
  ⟨rfl, rfl⟩

/-- No `Object.prototype` name contains a key, case-insensitively. -/
theorem prototype_names_contain_no_key :
    (objectPrototypeNames.all fun n =>
      mockResponses.all fun kv => !includes (asciiLower n) (asciiLower kv.1)) = true :=
  rfl

theorem partialMatch_first (lc : String → String) (lm : String) :
    ∀ entries : List (String × String),
      (∃ kv ∈ entries, includes lm (lc kv.1) = true) →
      ∃ pre key value post, entries = pre ++ (key, value) :: post ∧
        includes lm (lc key) = true ∧
        (∀ kv ∈ pre, includes lm (lc kv.1) = false) ∧
        partialMatch lc lm entries = .str value := by
  intro entries
  induction entries with
  | nil => rintro ⟨kv, hkv, -⟩; cases hkv
  | cons e rest ih =>
    obtain ⟨k, v⟩ := e
    intro hex
    by_cases hk : includes lm (lc k) = true
    · exact ⟨[], k, v, rest, rfl, hk, by simp, by simp [partialMatch, hk]⟩
    · have hk2 : includes lm (lc k) = false := by simpa using hk
      have hex2 : ∃ kv ∈ rest, includes lm (lc kv.1) = true := by
        obtain ⟨kv, hkv, hinc⟩ := hex
        rcases List.mem_cons.mp hkv with rfl | hmem
        · exact absurd hinc hk
        · exact ⟨kv, hmem, hinc⟩
      obtain ⟨pre, key, value, post, heq, hinc, hpre, hres⟩ := ih hex2
      refine ⟨(k, v) :: pre, key, value, post, by simp [heq], hinc, ?_, ?_⟩
      · intro kv hkv
        rcases List.mem_cons.mp hkv with rfl | hmem
        · exact hk2
        · exact hpre kv hmem
      · simp [partialMatch, hk2, hres]

theorem partialMatch_none (lc : String → String) (lm : String) :
    ∀ entries : List (String × String),
      (∀ kv ∈ entries, includes lm (lc kv.1) = false) →
      partialMatch lc lm entries = .str defaultResponse := by
  intro entries
  induction entries with
  | nil => intro _; rfl
  | cons e rest ih =>
    obtain ⟨k, v⟩ := e
    intro h
    have hk : includes lm (lc k) = false := h (k, v) (List.mem_cons_self _ _)
    simp only [partialMatch, hk]
    exact ih (fun kv hkv => h kv (List.mem_cons_of_mem _ hkv))

/-- A message that is neither a key nor an `Object.prototype` name reads as
`undefined` and goes to the substring scan. -/
theorem getBotResponse_of_not_own_nor_inherited (lc : String → String) (M : String)
    (hne : ∀ kv ∈ mockResponses, M ≠ kv.1) (hproto : M ∉ objectPrototypeNames) :
    getBotResponse lc M = partialMatch lc (lc M) mockResponses := by
  have h1 : mockResponses.lookup M = none := lookup_eq_none_of_not_key hne
  simp [getBotResponse, getProperty, h1, hproto, JSValue.truthy]

/-- A prototype name contains no key in lower case, whatever `toLowerCase` does
outside ASCII. -/
theorem prototype_name_no_key (lc : String → String) (hlc : LowerCaseOnAscii lc)
    (M : String) (hM : M ∈ objectPrototypeNames) :
    ∀ kv ∈ mockResponses, includes (lc M) (lc kv.1) = false := by
  intro kv hkv
  have hMa : isAscii M = true := List.all_eq_true.mp names_ascii.2 M hM
  have hka : isAscii kv.1 = true := List.all_eq_true.mp names_ascii.1 kv hkv
  rw [hlc M hMa, hlc kv.1 hka]
  have := List.all_eq_true.mp (List.all_eq_true.mp prototype_names_contain_no_key M hM) kv hkv
  simpa using this

/-- The fallback, for every message outside `Object.prototype`. -/
theorem getBotResponse_default (lc : String → String) (M : String)
    (hproto : M ∉ objectPrototypeNames)
    (hnone : ∀ kv ∈ mockResponses, includes (lc M) (lc kv.1) = false) :
    getBotResponse lc M = .str defaultResponse := by
  have hne : ∀ kv ∈ mockResponses, M ≠ kv.1 := by
    intro kv hkv heq
    have := hnone kv hkv
    rw [heq, includes_self] at this
    cases this
  rw [getBotResponse_of_not_own_nor_inherited lc M hne hproto]
  exact partialMatch_none lc (lc M) mockResponses hnone

/-! ## Claims on `getBotResponse` -/

/-- C1: a message that is exactly one of the declared keys of `mockResponses` gets
exactly the value stored under that key. -/
theorem getBotResponse_exact_key (toLowerCase : String → String) (key value : String)
    (h : (key, value) ∈ mockResponses) :
    getBotResponse toLowerCase key = .str value := by
  simp only [mockResponses, List.mem_cons, Prod.mk.injEq, List.mem_singleton,
    List.not_mem_nil, or_false] at h
  rcases h with ⟨rfl, rfl⟩ | ⟨rfl, rfl⟩ | ⟨rfl, rfl⟩ | ⟨rfl, rfl⟩ | ⟨rfl, rfl⟩ | ⟨rfl, rfl⟩ |
    ⟨rfl, rfl⟩ | ⟨rfl, rfl⟩ | ⟨rfl, rfl⟩ | ⟨rfl, rfl⟩ | ⟨rfl, rfl⟩ | ⟨rfl, rfl⟩ | ⟨rfl, rfl⟩ <;> rfl

/-- Witness of C1 at the key `Fever`, with the number of declared keys. -/
theorem getBotResponse_exact_key_witness :
    mockResponses.length = 13 ∧
      mockResponses.lookup "Fever" = some "Fever is your body's natural response to infection. Monitor your temperature and stay hydrated. If your fever is above 103°F (39.4°C) or persists for more than 3 days, seek medical attention. Rest and over-the-counter fever reducers may help." ∧
      getBotResponse asciiLower "Fever" = .str "Fever is your body's natural response to infection. Monitor your temperature and stay hydrated. If your fever is above 103°F (39.4°C) or persists for more than 3 days, seek medical attention. Rest and over-the-counter fever reducers may help." :=
  ⟨rfl, rfl, getBotResponse_exact_key asciiLower "Fever" _ (by simp [mockResponses])⟩

/-- C2: a message that is no key, but whose lower-case form contains the lower-case
form of some key, gets the value of the first such key in declaration order. -/
theorem getBotResponse_first_substring_key (toLowerCase : String → String)
    (hlc : LowerCaseOnAscii toLowerCase) (M : String)
    (hne : ∀ kv ∈ mockResponses, M ≠ kv.1)
    (hsub : ∃ kv ∈ mockResponses, includes (toLowerCase M) (toLowerCase kv.1) = true) :
    ∃ pre key value post, mockResponses = pre ++ (key, value) :: post ∧
      includes (toLowerCase M) (toLowerCase key) = true ∧
      (∀ kv ∈ pre, includes (toLowerCase M) (toLowerCase kv.1) = false) ∧
      getBotResponse toLowerCase M = .str value := by
  have hproto : M ∉ objectPrototypeNames := by
    intro hM
    obtain ⟨kv, hkv, hinc⟩ := hsub
    rw [prototype_name_no_key toLowerCase hlc M hM kv hkv] at hinc
    cases hinc
  rw [getBotResponse_of_not_own_nor_inherited toLowerCase M hne hproto]
  exact partialMatch_first toLowerCase (toLowerCase M) mockResponses hsub

/-- Witness of C2: `headache and fever` contains two keys and gets the entry of
`Fever`, the earlier declared one; `I have a bad headache` gets the `Headache`
entry. -/
theorem getBotResponse_first_substring_key_witness :
    LowerCaseOnAscii asciiLower ∧
      (∀ kv ∈ mockResponses, "headache and fever" ≠ kv.1) ∧
      (∃ kv ∈ mockResponses,
        includes (asciiLower "headache and fever") (asciiLower kv.1) = true) ∧
      (∃ pre key value post, mockResponses = pre ++ (key, value) :: post ∧
        includes (asciiLower "headache and fever") (asciiLower key) = true ∧
        (∀ kv ∈ pre, includes (asciiLower "headache and fever") (asciiLower kv.1) = false) ∧
        getBotResponse asciiLower "headache and fever" = .str value) ∧
      (mockResponses.lookup "Fever").map JSValue.str
        = some (getBotResponse asciiLower "headache and fever") ∧
      (mockResponses.lookup "Headache").map JSValue.str
        = some (getBotResponse asciiLower "I have a bad headache") := by
  have hne : ∀ kv ∈ mockResponses, "headache and fever" ≠ kv.1 := by
    intro kv hkv
    have h := List.all_eq_true.mp
      (rfl : (mockResponses.all fun kv => decide ("headache and fever" ≠ kv.1)) = true) kv hkv
    simpa using h
  have hsub : ∃ kv ∈ mockResponses,
      includes (asciiLower "headache and fever") (asciiLower kv.1) = true :=
    List.any_eq_true.mp (rfl : (mockResponses.any fun kv =>
      includes (asciiLower "headache and fever") (asciiLower kv.1)) = true)
  exact ⟨lowerCaseOnAscii_asciiLower, hne, hsub,
    getBotResponse_first_substring_key asciiLower lowerCaseOnAscii_asciiLower
      "headache and fever" hne hsub, rfl, rfl⟩

/-- C3, evaluated at the message `constructor`: its lower-case form contains no
key, and the exact-match step returns the inherited member `constructor` of
`Object.prototype` instead of the fallback text. -/
theorem getBotResponse_constructor :
    (mockResponses.all fun kv =>
        !includes (asciiLower "constructor") (asciiLower kv.1)) = true ∧
      (∀ toLowerCase : String → String,
        getBotResponse toLowerCase "constructor" = JSValue.inherited "constructor") ∧
      getBotResponse asciiLower "constructor" ≠ JSValue.str defaultResponse ∧
      getBotResponse asciiLower "xyz" = JSValue.str defaultResponse ∧
      getBotResponse asciiLower "" = JSValue.str defaultResponse :=
  ⟨rfl, fun _ => rfl, by rw [show getBotResponse asciiLower "constructor"
      = JSValue.inherited "constructor" from rfl]; exact fun h => JSValue.noConfusion h,
    rfl, rfl⟩

/-! ## Claims on `buildStructuredQuery` -/

theorem exists_prepend_ite (c : Prop) [Decidable c] (x m u : String)
    (h : ∃ p : String, m = p ++ u) : ∃ p : String, (if c then x ++ m else m) = p ++ u := by
  obtain ⟨p, rfl⟩ := h
  by_cases hc : c
  · exact ⟨x ++ p, by simp [hc, String.append_assoc]⟩
  · exact ⟨p, by simp [hc]⟩

theorem profileParts_ne_nil_of_age (p : ProfileData) (a : Int) (ha : p.age = some a)
    (hpos : 0 < a) : 0 < (profileParts p).length := by
  simp [profileParts, ha, hpos]

theorem contextParts_ne_nil_of_allergies (h : PatientHistory) (ha : h.allergies ≠ []) :
    0 < (contextParts h).length := by
  have : 0 < h.allergies.length := List.length_pos.mpr ha
  simp [contextParts, this]

/-- C4, as stated, fails on the page with country India, age 30 and the allergy
penicillin: the medical-history clause comes first, before the profile clause. -/
theorem contextualMessage_order_counterexample :
    (buildStructuredQuery indiaPage "hi").structured.contextualMessage
        = "The user has reported the following medical context: Known allergies: penicillin. Provide educational information and avoid mentioning medicines that may conflict. "
          ++ ("User has reported age: 30. Use this only to tailor educational safety information. "
          ++ ("Provide educational medical information based on medicines commonly used in India. "
          ++ "hi")) ∧
      (buildStructuredQuery indiaPage "hi").structured.contextualMessage
        ≠ "User has reported age: 30. Use this only to tailor educational safety information. "
          ++ ("The user has reported the following medical context: Known allergies: penicillin. Provide educational information and avoid mentioning medicines that may conflict. "
          ++ ("Provide educational medical information based on medicines commonly used in India. "
          ++ "hi")) := by
  set_option maxRecDepth 100000 in
  exact ⟨rfl, by decide⟩

/-- C4, amended: with a country other than Global, an age and an allergy, the
contextual message is the medical-history clause, then the profile clause, then
the country clause, then the raw message. -/
theorem contextualMessage_order (pg : Page) (userMessage : String) (a : Int)
    (hset : pg.selectedCountry ≠ "") (hglobal : pg.selectedCountry ≠ "Global")
    (hage : pg.profileData.age = some a) (hpos : 0 < a)
    (hallergy : pg.patientHistory.allergies ≠ []) :
    (buildStructuredQuery pg userMessage).structured.contextualMessage
      = ("The user has reported the following medical context: "
          ++ join "; " (contextParts pg.patientHistory)
          ++ ". Provide educational information and avoid mentioning medicines that may conflict. ")
        ++ (("User has reported " ++ join ", " (profileParts pg.profileData)
          ++ ". Use this only to tailor educational safety information. ")
        ++ (("Provide educational medical information based on medicines commonly used in "
          ++ pg.selectedCountry ++ ". ")
        ++ userMessage)) := by
  have h1 := profileParts_ne_nil_of_age pg.profileData a hage hpos
  have h2 := contextParts_ne_nil_of_allergies pg.patientHistory hallergy
  have h3 : 0 < pg.patientHistory.allergies.length := List.length_pos.mpr hallergy
  have h4 : hasAge pg.profileData = true := by simp [hasAge, hage, hpos]
  simp [buildStructuredQuery, hset, hglobal, h1, h2, h3, h4, String.append_assoc]

/-- Witness of C4 (amended) on the page with country India, age 30 and the allergy
penicillin. -/
theorem contextualMessage_order_witness :
    (buildStructuredQuery indiaPage "I have fever").structured.contextualMessage
      = ("The user has reported the following medical context: "
          ++ join "; " (contextParts indiaPage.patientHistory)
          ++ ". Provide educational information and avoid mentioning medicines that may conflict. ")
        ++ (("User has reported " ++ join ", " (profileParts indiaPage.profileData)
          ++ ". Use this only to tailor educational safety information. ")
        ++ (("Provide educational medical information based on medicines commonly used in "
          ++ indiaPage.selectedCountry ++ ". ")
        ++ "I have fever")) :=
  contextualMessage_order indiaPage "I have fever" 30 (by decide) (by decide) rfl (by decide)
    (by decide)

/-- C5: the contextual message ends with the raw message, and the `userMessage`
field is the raw message. -/
theorem contextualMessage_ends_with_raw (pg : Page) (userMessage : String) :
    (∃ clauses : String,
      (buildStructuredQuery pg userMessage).structured.contextualMessage
        = clauses ++ userMessage) ∧
      userMessage.data <:+ (buildStructuredQuery pg userMessage).structured.contextualMessage.data ∧
      (buildStructuredQuery pg userMessage).structured.userMessage = userMessage := by
  have h : ∃ clauses : String,
      (buildStructuredQuery pg userMessage).structured.contextualMessage
        = clauses ++ userMessage := by
    unfold buildStructuredQuery
    dsimp only
    exact exists_prepend_ite _ _ _ _ (exists_prepend_ite _ _ _ _
      (exists_prepend_ite _ _ _ _ ⟨"", by simp⟩))
  refine ⟨h, ?_, rfl⟩
  obtain ⟨clauses, hc⟩ := h
  rw [hc]
  exact ⟨clauses.data, by simp⟩

/-- C7: the query string is `userMessage`, `mode`, `country`, then `medicineBrand`
when the trimmed brand is non-empty, then `category` when a category is selected,
then `context` when a context is selected, in this order and with no other field. -/
theorem queryString_layout (pg : Page) (userMessage : String) :
    (buildStructuredQuery pg userMessage).queryString
      = "userMessage=" ++ (encodeURIComponent userMessage
        ++ ("&mode=" ++ (pg.currentMode
        ++ ("&country=" ++ (encodeURIComponent pg.selectedCountry
        ++ ((if trim pg.medicineBrandValue ≠ "" then
              "&medicineBrand=" ++ encodeURIComponent (trim pg.medicineBrandValue)
            else "")
        ++ ((if pg.selectedFilters.category ≠ [] then
              "&category=" ++ encodeURIComponent (join "," pg.selectedFilters.category)
            else "")
        ++ (if pg.selectedFilters.context ≠ [] then
              "&context=" ++ encodeURIComponent (join "," pg.selectedFilters.context)
            else "")))))))) := by
  by_cases hb : trim pg.medicineBrandValue = "" <;>
  by_cases hcat : pg.selectedFilters.category = [] <;>
  by_cases hctx : pg.selectedFilters.context = [] <;>
  simp [buildStructuredQuery, hb, hcat, hctx, List.length_pos, String.append_assoc]

/-- C8, as stated, fails on a history that holds only the chronic condition `None`:
a field is non-empty and no clause is prepended. -/
theorem medical_clause_counterexample :
    sentinelPage.patientHistory.chronicConditions = ["None"] ∧
      (buildStructuredQuery sentinelPage "hi").structured.contextualMessage = "hi" ∧
      (buildStructuredQuery
          { sentinelPage with
            patientHistory :=
              { allergies := [], chronicConditions := ["None", "Diabetes"],
                pregnancyStatus := true } }
          "hi").structured.contextualMessage
        = "The user has reported the following medical context: Pregnancy status: Yes. Provide educational information and avoid mentioning medicines that may conflict. hi" := by
  set_option maxRecDepth 100000 in
  exact ⟨rfl, rfl, rfl⟩

/-- C8, amended: the medical-history clause is prepended exactly when the history
has an allergy, a non-empty chronic-condition list without `None`, or a true
pregnancy status; it lists the allergies, the chronic conditions (only when that
list is non-empty and without `None`) and the pregnancy status, and what follows it
is the message built with an empty history. -/
theorem medical_clause (pg : Page) (userMessage : String) :
    (buildStructuredQuery pg userMessage).structured.contextualMessage
      = (if pg.patientHistory.allergies ≠ [] ∨
            (pg.patientHistory.chronicConditions ≠ [] ∧
              "None" ∉ pg.patientHistory.chronicConditions) ∨
            pg.patientHistory.pregnancyStatus = true then
          "The user has reported the following medical context: "
            ++ (join "; "
              ((if pg.patientHistory.allergies ≠ [] then
                  ["Known allergies: " ++ join ", " pg.patientHistory.allergies] else [])
                ++ ((if pg.patientHistory.chronicConditions ≠ [] ∧
                      "None" ∉ pg.patientHistory.chronicConditions then
                    ["Chronic conditions: " ++ join ", " pg.patientHistory.chronicConditions]
                  else [])
                ++ (if pg.patientHistory.pregnancyStatus = true then
                    ["Pregnancy status: Yes"] else [])))
            ++ ". Provide educational information and avoid mentioning medicines that may conflict. ")
        else "")
        ++ (buildStructuredQuery
            { pg with
              patientHistory := { allergies := [], chronicConditions := [], pregnancyStatus := false } }
            userMessage).structured.contextualMessage := by
  by_cases ha : pg.patientHistory.allergies = [] <;>
  by_cases hc : pg.patientHistory.chronicConditions = [] <;>
  by_cases hn : "None" ∈ pg.patientHistory.chronicConditions <;>
  by_cases hp : pg.patientHistory.pregnancyStatus = true <;>
  simp [buildStructuredQuery, contextParts, ha, hc, hn, hp, List.length_pos,
    String.append_assoc]

/-- C9: the `patientHistory` field is `null` exactly when there is no allergy, no
chronic-condition entry and no pregnancy; otherwise it is an object with the
allergy list (`null` if empty), the condition list (`null` if empty or containing
`None`) and `true` for the pregnancy status (`null` if false). -/
theorem structured_patientHistory (pg : Page) (userMessage : String) :
    ((buildStructuredQuery pg userMessage).structured.patientHistory = none ↔
        pg.patientHistory.allergies = [] ∧ pg.patientHistory.chronicConditions = [] ∧
          pg.patientHistory.pregnancyStatus = false) ∧
      (buildStructuredQuery pg userMessage).structured.patientHistory
        = (if pg.patientHistory.allergies = [] ∧ pg.patientHistory.chronicConditions = [] ∧
              pg.patientHistory.pregnancyStatus = false then none
          else some
            { allergies :=
                if pg.patientHistory.allergies = [] then none
                else some pg.patientHistory.allergies
              chronicConditions :=
                if pg.patientHistory.chronicConditions = [] ∨
                    "None" ∈ pg.patientHistory.chronicConditions then none
                else some pg.patientHistory.chronicConditions
              pregnancyStatus :=
                if pg.patientHistory.pregnancyStatus = false then none else some true }) := by
  by_cases ha : pg.patientHistory.allergies = [] <;>
  by_cases hc : pg.patientHistory.chronicConditions = [] <;>
  by_cases hn : "None" ∈ pg.patientHistory.chronicConditions <;>
  by_cases hp : pg.patientHistory.pregnancyStatus = true <;>
  simp [buildStructuredQuery, ha, hc, hn, hp, List.length_pos]

/-- C10: in the `filters` field, `medicineBrand` is `null` exactly when the trimmed
brand text is empty and is the trimmed text otherwise; `drugCategory` and `context`
are `null` exactly when the respective selection is empty and are the selected
lists otherwise. -/
theorem structured_filters (pg : Page) (userMessage : String) :
    ((buildStructuredQuery pg userMessage).structured.filters.medicineBrand = none ↔
        trim pg.medicineBrandValue = "") ∧
      (buildStructuredQuery pg userMessage).structured.filters.medicineBrand
        = (if trim pg.medicineBrandValue = "" then none
          else some (trim pg.medicineBrandValue)) ∧
      ((buildStructuredQuery pg userMessage).structured.filters.drugCategory = none ↔
        pg.selectedFilters.category = []) ∧
      (buildStructuredQuery pg userMessage).structured.filters.drugCategory
        = (if pg.selectedFilters.category = [] then none
          else some pg.selectedFilters.category) ∧
      ((buildStructuredQuery pg userMessage).structured.filters.context = none ↔
        pg.selectedFilters.context = []) ∧
      (buildStructuredQuery pg userMessage).structured.filters.context
        = (if pg.selectedFilters.context = [] then none
          else some pg.selectedFilters.context) := by
  by_cases hb : trim pg.medicineBrandValue = "" <;>
  by_cases hcat : pg.selectedFilters.category = [] <;>
  by_cases hctx : pg.selectedFilters.context = [] <;>
  simp [buildStructuredQuery, hb, hcat, hctx, List.length_pos]

/-! ## Claims on `validateAgeInput` -/

theorem digitChar_facts (d : Nat) (hd : d < 10) :
    isDigit (digitChar d) = true ∧ digitValue (digitChar d) = d ∧
      isJSWhiteSpace (digitChar d) = false ∧ digitChar d ≠ '-' ∧ digitChar d ≠ '+' := by
  interval_cases d <;> exact ⟨rfl, rfl, rfl, by decide, by decide⟩

theorem takeWhile_digits (ds : List Nat) (hds : ∀ d ∈ ds, d < 10) :
    (ds.map digitChar).takeWhile isDigit = ds.map digitChar := by
  induction ds with
  | nil => rfl
  | cons d ds ih =>
    have hd := (digitChar_facts d (hds d (List.mem_cons_self _ _))).1
    simp only [List.map_cons, List.takeWhile_cons, hd, if_true]
    rw [ih (fun e he => hds e (List.mem_cons_of_mem _ he))]

theorem foldl_digits (ds : List Nat) (hds : ∀ d ∈ ds, d < 10) (acc : Nat) :
    (ds.map digitChar).foldl (fun a c => a * 10 + digitValue c) acc
      = acc * 10 ^ ds.length + Nat.ofDigits 10 ds.reverse := by
  induction ds generalizing acc with
  | nil => simp
  | cons d ds ih =>
    have hd := (digitChar_facts d (hds d (List.mem_cons_self _ _))).2.1
    simp only [List.map_cons, List.foldl_cons, hd, List.reverse_cons, List.length_cons]
    rw [ih (fun e he => hds e (List.mem_cons_of_mem _ he)), Nat.ofDigits_append]
    simp only [List.length_reverse, Nat.ofDigits_singleton]
    ring

/-- The call `parseInt` on a text made of decimal digits only. -/
theorem parseInt10_digits (s : String) (ds : List Nat) (hne : ds ≠ [])
    (hds : ∀ d ∈ ds, d < 10) (hs : s.data = ds.map digitChar) :
    parseInt10 s = some ((Nat.ofDigits 10 ds.reverse : Nat) : Int) := by
  obtain ⟨d, rest, rfl⟩ : ∃ d rest, ds = d :: rest := by
    cases ds with
    | nil => exact absurd rfl hne
    | cons d rest => exact ⟨d, rest, rfl⟩
  obtain ⟨h1, h2, h3, h4, h5⟩ := digitChar_facts d (hds d (List.mem_cons_self _ _))
  have htw := takeWhile_digits (d :: rest) hds
  have hfold := foldl_digits (d :: rest) hds 0
  simp only [List.map_cons] at hs htw hfold
  simp [parseInt10, hs, List.dropWhile_cons, h3, h4, h5, htw, hfold]

/-- The call `parseInt` on a text whose first character is neither white space,
nor a digit, nor a sign. -/
theorem parseInt10_no_number (s : String) (c : Char) (rest : List Char)
    (hs : s.data = c :: rest) (hw : isJSWhiteSpace c = false) (hd : isDigit c = false)
    (hm : c ≠ '-') (hp : c ≠ '+') : parseInt10 s = none := by
  simp [parseInt10, hs, List.dropWhile_cons, hw, hm, hp, List.takeWhile_cons, hd]

theorem dropWhile_head_false (p : Char → Bool) :
    ∀ (l : List Char) (c : Char) (t : List Char), l.dropWhile p = c :: t → p c = false := by
  intro l
  induction l with
  | nil => intro c t h; simp at h
  | cons x xs ih =>
    intro c t h
    by_cases hx : p x = true
    · rw [List.dropWhile_cons, if_pos hx] at h
      exact ih c t h
    · rw [List.dropWhile_cons, if_neg hx] at h
      obtain ⟨rfl, -⟩ := List.cons.inj h
      simpa using hx

/-- A trimmed text does not start with white space. -/
theorem trim_head_not_whiteSpace (s : String) (c : Char) (rest : List Char)
    (h : (trim s).data = c :: rest) : isJSWhiteSpace c = false := by
  have hsuf : (s.data.dropWhile isJSWhiteSpace).reverse.dropWhile isJSWhiteSpace
      <:+ (s.data.dropWhile isJSWhiteSpace).reverse := List.dropWhile_suffix _
  have hpre : (trim s).data <+: s.data.dropWhile isJSWhiteSpace := by
    have := List.reverse_prefix.mpr hsuf
    simpa [trim] using this
  rw [h] at hpre
  obtain ⟨t, ht⟩ := hpre
  exact dropWhile_head_false isJSWhiteSpace s.data c (rest ++ t) (by simpa using ht.symm)

theorem ne_empty_of_data_cons (s : String) (c : Char) (rest : List Char)
    (h : s.data = c :: rest) : s ≠ "" := by
  intro he
  rw [he] at h
  cases h

/-- The call `parseInt` on a sign followed by decimal digits only. -/
theorem parseInt10_signed_digits (s : String) (c : Char) (ds : List Nat)
    (hc : c = '-' ∨ c = '+') (hne : ds ≠ []) (hds : ∀ d ∈ ds, d < 10)
    (hs : s.data = c :: ds.map digitChar) :
    parseInt10 s
      = some ((if c = '-' then -1 else 1) * ((Nat.ofDigits 10 ds.reverse : Nat) : Int)) := by
  have htw := takeWhile_digits ds hds
  have hfold := foldl_digits ds hds 0
  have hnil : (ds.map digitChar).isEmpty = false := by
    cases ds with
    | nil => exact absurd rfl hne
    | cons d rest => rfl
  rcases hc with rfl | rfl
  · have hw : isJSWhiteSpace '-' = false := rfl
    simp [parseInt10, hs, List.dropWhile_cons, hw, htw, hfold, hne]
  · have hw : isJSWhiteSpace '+' = false := rfl
    have hpm : ('+' : Char) ≠ '-' := by decide
    simp [parseInt10, hs, List.dropWhile_cons, hw, htw, hfold, hne, hpm]

/-- The call `parseInt` on a sign that no digit follows. -/
theorem parseInt10_sign_alone (s : String) (c : Char) (rest : List Char)
    (hc : c = '-' ∨ c = '+') (hs : s.data = c :: rest)
    (hrest : ∀ d t, rest = d :: t → isDigit d = false) : parseInt10 s = none := by
  have htw : rest.takeWhile isDigit = [] := by
    cases rest with
    | nil => rfl
    | cons d t => simp [List.takeWhile_cons, hrest d t rfl]
  rcases hc with rfl | rfl
  · have hw : isJSWhiteSpace '-' = false := rfl
    simp [parseInt10, hs, List.dropWhile_cons, hw, htw]
  · have hw : isJSWhiteSpace '+' = false := rfl
    simp [parseInt10, hs, List.dropWhile_cons, hw, htw]

/-- Age coercion on the texts without sign: the trimmed text is empty, starts with
a character that is neither a digit nor a sign, or is made of decimal digits
only.  Sex and country of the profile are not touched. -/
theorem validateAgeInput_coercion (text : String) (pd : ProfileData) :
    (trim text = "" → (validateAgeInput text pd).2.age = none) ∧
      (∀ (c : Char) (rest : List Char), (trim text).data = c :: rest →
        isDigit c = false → c ≠ '-' → c ≠ '+' →
        (validateAgeInput text pd).2.age = none) ∧
      (∀ ds : List Nat, ds ≠ [] → (∀ d ∈ ds, d < 10) →
        (trim text).data = ds.map digitChar →
        (validateAgeInput text pd).2.age
          = (if 1 ≤ Nat.ofDigits 10 ds.reverse ∧ Nat.ofDigits 10 ds.reverse ≤ 150 then
              some ((Nat.ofDigits 10 ds.reverse : Nat) : Int)
            else none)) ∧
      (validateAgeInput text pd).2.sex = pd.sex ∧
      (validateAgeInput text pd).2.country = pd.country := by
  refine ⟨?_, ?_, ?_, ?_, ?_⟩
  · intro h
    simp [validateAgeInput, h]
  · intro c rest hs hd hm hp
    have hw := trim_head_not_whiteSpace text c rest hs
    have hne := ne_empty_of_data_cons _ c rest hs
    have hparse := parseInt10_no_number (trim text) c rest hs hw hd hm hp
    simp [validateAgeInput, hne, hparse]
  · intro ds hne hds hs
    have hparse := parseInt10_digits (trim text) ds hne hds hs
    have hne2 : trim text ≠ "" := by
      cases ds with
      | nil => exact absurd rfl hne
      | cons d rest => exact ne_empty_of_data_cons _ _ _ hs
    simp only [validateAgeInput, hne2, if_false, hparse]
    by_cases h : 1 ≤ Nat.ofDigits 10 ds.reverse ∧ Nat.ofDigits 10 ds.reverse ≤ 150
    · have h1 : ¬ (((Nat.ofDigits 10 ds.reverse : Nat) : Int) < 1 ∨
          ((Nat.ofDigits 10 ds.reverse : Nat) : Int) > 150) := by omega
      rw [if_neg h1, if_pos h]
    · have h1 : ((Nat.ofDigits 10 ds.reverse : Nat) : Int) < 1 ∨
          ((Nat.ofDigits 10 ds.reverse : Nat) : Int) > 150 := by omega
      rw [if_pos h1, if_neg h]
  · unfold validateAgeInput
    dsimp only
    split_ifs <;> try rfl
    split <;> [rfl; (split_ifs <;> rfl)]
  · unfold validateAgeInput
    dsimp only
    split_ifs <;> try rfl
    split <;> [rfl; (split_ifs <;> rfl)]

/-- Age coercion on the texts with a sign: a plus sign before decimal digits is
read as the number, a minus sign gives a value below 1, a sign that no digit
follows gives no number. -/
theorem validateAgeInput_signed (text : String) (pd : ProfileData) :
    (∀ ds : List Nat, ds ≠ [] → (∀ d ∈ ds, d < 10) →
        (trim text).data = '+' :: ds.map digitChar →
        (validateAgeInput text pd).2.age
          = (if 1 ≤ Nat.ofDigits 10 ds.reverse ∧ Nat.ofDigits 10 ds.reverse ≤ 150 then
              some ((Nat.ofDigits 10 ds.reverse : Nat) : Int)
            else none)) ∧
      (∀ ds : List Nat, ds ≠ [] → (∀ d ∈ ds, d < 10) →
        (trim text).data = '-' :: ds.map digitChar →
        (validateAgeInput text pd).2.age = none) ∧
      (∀ (c : Char) (rest : List Char), (c = '-' ∨ c = '+') →
        (trim text).data = c :: rest → (∀ d t, rest = d :: t → isDigit d = false) →
        (validateAgeInput text pd).2.age = none) := by
  refine ⟨?_, ?_, ?_⟩
  · intro ds hne hds hs
    have hparse := parseInt10_signed_digits (trim text) '+' ds (Or.inr rfl) hne hds hs
    have hpm : ('+' : Char) ≠ '-' := by decide
    rw [if_neg hpm, one_mul] at hparse
    have hne2 : trim text ≠ "" := ne_empty_of_data_cons _ _ _ hs
    simp only [validateAgeInput, hne2, if_false, hparse]
    by_cases h : 1 ≤ Nat.ofDigits 10 ds.reverse ∧ Nat.ofDigits 10 ds.reverse ≤ 150
    · have h1 : ¬ (((Nat.ofDigits 10 ds.reverse : Nat) : Int) < 1 ∨
          ((Nat.ofDigits 10 ds.reverse : Nat) : Int) > 150) := by omega
      rw [if_neg h1, if_pos h]
    · have h1 : ((Nat.ofDigits 10 ds.reverse : Nat) : Int) < 1 ∨
          ((Nat.ofDigits 10 ds.reverse : Nat) : Int) > 150 := by omega
      rw [if_pos h1, if_neg h]
  · intro ds hne hds hs
    have hparse := parseInt10_signed_digits (trim text) '-' ds (Or.inl rfl) hne hds hs
    rw [if_pos rfl] at hparse
    have hne2 : trim text ≠ "" := ne_empty_of_data_cons _ _ _ hs
    have h1 : (-1 : Int) * ((Nat.ofDigits 10 ds.reverse : Nat) : Int) < 1 ∨
        (-1 : Int) * ((Nat.ofDigits 10 ds.reverse : Nat) : Int) > 150 := by omega
    simp only [validateAgeInput, hne2, if_false, hparse]
    rw [if_pos h1]
  · intro c rest hc hs hrest
    have hparse := parseInt10_sign_alone (trim text) c rest hc hs hrest
    have hne2 : trim text ≠ "" := ne_empty_of_data_cons _ _ _ hs
    simp [validateAgeInput, hne2, hparse]

/-- C6, evaluated at the text `12abc`: the text is not a number, yet the age
becomes 12 and the field keeps its text; likewise `150.9`, above 150, is stored as
150.  Everywhere else the coercion is as claimed: `0`, `151`, `abc` and `-5` leave
the age absent, `1`, `150`, `+7` and ` 42 ` are stored, and in general an empty
text, a text that starts with no number, and a text that is a decimal numeral with
or without sign are treated as the claim says. -/
theorem validateAgeInput_trailing_text :
    validateAgeInput "12abc" initialPage.profileData
        = ("12abc", { initialPage.profileData with age := some 12 }) ∧
      (trim "12abc").data.all isDigit = false ∧
      (validateAgeInput "150.9" initialPage.profileData).2.age = some 150 ∧
      (validateAgeInput "0" initialPage.profileData).2.age = none ∧
      (validateAgeInput "151" initialPage.profileData).2.age = none ∧
      (validateAgeInput "abc" initialPage.profileData).2.age = none ∧
      validateAgeInput "abc" initialPage.profileData
        = ("", { initialPage.profileData with age := none }) ∧
      (validateAgeInput "-5" initialPage.profileData).2.age = none ∧
      (validateAgeInput "1" initialPage.profileData).2.age = some 1 ∧
      (validateAgeInput "150" initialPage.profileData).2.age = some 150 ∧
      (validateAgeInput "+7" initialPage.profileData).2.age = some 7 ∧
      (validateAgeInput " 42 " initialPage.profileData).2.age = some 42 ∧
      (∀ (text : String) (pd : ProfileData),
        (trim text = "" → (validateAgeInput text pd).2.age = none) ∧
        (∀ (c : Char) (rest : List Char), (trim text).data = c :: rest →
          isDigit c = false → c ≠ '-' → c ≠ '+' →
          (validateAgeInput text pd).2.age = none) ∧
        (∀ (c : Char) (rest : List Char), (c = '-' ∨ c = '+') →
          (trim text).data = c :: rest → (∀ d t, rest = d :: t → isDigit d = false) →
          (validateAgeInput text pd).2.age = none) ∧
        (∀ ds : List Nat, ds ≠ [] → (∀ d ∈ ds, d < 10) →
          ((trim text).data = ds.map digitChar ∨
            (trim text).data = '+' :: ds.map digitChar) →
          (validateAgeInput text pd).2.age
            = (if 1 ≤ Nat.ofDigits 10 ds.reverse ∧ Nat.ofDigits 10 ds.reverse ≤ 150 then
                some ((Nat.ofDigits 10 ds.reverse : Nat) : Int)
              else none)) ∧
        (∀ ds : List Nat, ds ≠ [] → (∀ d ∈ ds, d < 10) →
          (trim text).data = '-' :: ds.map digitChar →
          (validateAgeInput text pd).2.age = none)) := by
  refine ⟨rfl, rfl, rfl, rfl, rfl, rfl, rfl, rfl, rfl, rfl, rfl, rfl, ?_⟩
  intro text pd
  have h1 := validateAgeInput_coercion text pd
  have h2 := validateAgeInput_signed text pd
  refine ⟨h1.1, h1.2.1, h2.2.2, ?_, h2.2.1⟩
  intro ds hne hds hs
  rcases hs with hs | hs
  · exact h1.2.2.1 ds hne hds hs
  · exact h2.1 ds hne hds hs

/-! ## Country and profile clauses -/

/-- C11: the country clause stands immediately before the raw message exactly when
the country is set and is not `Global`; what precedes it does not depend on the
country; with the country `Global` or empty and no profile or history data the
contextual message is the raw message. -/
theorem country_clause (pg : Page) (userMessage : String) :
    (buildStructuredQuery pg userMessage).structured.contextualMessage
        = (buildStructuredQuery { pg with selectedCountry := "Global" }
            "").structured.contextualMessage
          ++ ((if pg.selectedCountry ≠ "" ∧ pg.selectedCountry ≠ "Global" then
                "Provide educational medical information based on medicines commonly used in "
                  ++ pg.selectedCountry ++ ". "
              else "")
          ++ userMessage) ∧
      (pg.profileData.age = none → pg.profileData.sex = "" →
        pg.patientHistory.allergies = [] → pg.patientHistory.chronicConditions = [] →
        pg.patientHistory.pregnancyStatus = false →
        (pg.selectedCountry = "Global" ∨ pg.selectedCountry = "") →
        (buildStructuredQuery pg userMessage).structured.contextualMessage = userMessage) := by
  constructor
  · simp only [buildStructuredQuery]
    split_ifs <;> simp_all [String.append_assoc]
  · intro h1 h2 h3 h4 h5 h6
    rcases h6 with h6 | h6 <;>
      simp [buildStructuredQuery, hasAge, profileParts, contextParts, h1, h2, h3, h4, h5, h6]

/-- Witness of C11 on the page at load (country `Global`, no data) and on a page
with the country India alone. -/
theorem country_clause_witness :
    (buildStructuredQuery initialPage "I have fever").structured.contextualMessage
        = "I have fever" ∧
      (buildStructuredQuery { initialPage with selectedCountry := "India" }
          "I have fever").structured.contextualMessage
        = "Provide educational medical information based on medicines commonly used in India. I have fever" := by
  refine ⟨(country_clause initialPage "I have fever").2 rfl rfl rfl rfl rfl (Or.inl rfl), ?_⟩
  set_option maxRecDepth 100000 in
  exact rfl

/-- The shape of the contextual message: medical-history clause, profile clause,
country clause, raw message, each clause possibly empty. -/
theorem contextualMessage_eq_clauses (pg : Page) (userMessage : String) :
    (buildStructuredQuery pg userMessage).structured.contextualMessage
      = medicalClause pg.patientHistory
        ++ (profileClause pg.profileData ++ (countryClause pg.selectedCountry ++ userMessage)) := by
  simp only [buildStructuredQuery, medicalClause, profileClause, countryClause]
  split_ifs <;> simp [String.append_assoc]

theorem profileClause_none (country : String) :
    profileClause { age := none, sex := "", country := country } = "" := by
  simp [profileClause, hasAge]

theorem medicalClause_none :
    medicalClause { allergies := [], chronicConditions := [], pregnancyStatus := false } = "" := by
  simp [medicalClause]

theorem countryClause_global : countryClause "Global" = "" := by
  simp [countryClause]

theorem reported_age (x : String) :
    "User has reported " ++ ("age: " ++ x) = "User has reported age: " ++ x := by
  rw [← String.append_assoc]
  rfl

theorem reported_sex (x : String) :
    "User has reported " ++ ("sex: " ++ x) = "User has reported sex: " ++ x := by
  rw [← String.append_assoc]
  rfl

theorem comma_sex (x : String) : ", " ++ ("sex: " ++ x) = ", sex: " ++ x := by
  rw [← String.append_assoc]
  rfl

theorem profileClause_eq (p : ProfileData) :
    profileClause p
      = (match p.age with
        | some a =>
          if 0 < a then
            (if p.sex ≠ "" then
              "User has reported age: " ++ numberToString a ++ ", sex: " ++ p.sex
                ++ ". Use this only to tailor educational safety information. "
            else
              "User has reported age: " ++ numberToString a
                ++ ". Use this only to tailor educational safety information. ")
          else
            (if p.sex ≠ "" then
              "User has reported sex: " ++ p.sex
                ++ ". Use this only to tailor educational safety information. "
            else "")
        | none =>
          if p.sex ≠ "" then
            "User has reported sex: " ++ p.sex
              ++ ". Use this only to tailor educational safety information. "
          else "") := by
  rcases hage : p.age with _ | a
  · by_cases hsex : p.sex = "" <;>
      simp [profileClause, hasAge, profileParts, join, hage, hsex, String.append_assoc,
        reported_sex]
  · by_cases hpos : 0 < a <;> by_cases hsex : p.sex = "" <;>
      simp [profileClause, hasAge, profileParts, join, hage, hpos, hsex, String.append_assoc,
        reported_age, reported_sex, comma_sex]

/-- C12: the profile clause is prepended exactly when the profile has an age above
zero or a non-empty sex; it reads `User has reported age: A, sex: S.` followed by
the advisory sentence, with only the part that is present when one is missing; it
stands between the medical-history clause and the message built without profile
data; a profile with neither adds nothing. -/
theorem profile_clause (pg : Page) (userMessage : String) :
    (buildStructuredQuery pg userMessage).structured.contextualMessage
        = (buildStructuredQuery
            { pg with
              selectedCountry := "Global"
              profileData := { age := none, sex := "", country := pg.profileData.country } }
            "").structured.contextualMessage
          ++ ((match pg.profileData.age with
              | some a =>
                if 0 < a then
                  (if pg.profileData.sex ≠ "" then
                    "User has reported age: " ++ numberToString a ++ ", sex: "
                      ++ pg.profileData.sex
                      ++ ". Use this only to tailor educational safety information. "
                  else
                    "User has reported age: " ++ numberToString a
                      ++ ". Use this only to tailor educational safety information. ")
                else
                  (if pg.profileData.sex ≠ "" then
                    "User has reported sex: " ++ pg.profileData.sex
                      ++ ". Use this only to tailor educational safety information. "
                  else "")
              | none =>
                if pg.profileData.sex ≠ "" then
                  "User has reported sex: " ++ pg.profileData.sex
                    ++ ". Use this only to tailor educational safety information. "
                else "")
          ++ (buildStructuredQuery
              { pg with
                profileData := { age := none, sex := "", country := pg.profileData.country }
                patientHistory :=
                  { allergies := [], chronicConditions := [], pregnancyStatus := false } }
              userMessage).structured.contextualMessage) ∧
      (buildStructuredQuery
          { initialPage with profileData := { age := some 30, sex := "Female", country := "Global" } }
          "hi").structured.contextualMessage
        = "User has reported age: 30, sex: Female. Use this only to tailor educational safety information. hi" ∧
      (buildStructuredQuery
          { initialPage with profileData := { age := some 30, sex := "", country := "Global" } }
          "hi").structured.contextualMessage
        = "User has reported age: 30. Use this only to tailor educational safety information. hi" ∧
      (buildStructuredQuery
          { initialPage with profileData := { age := none, sex := "Male", country := "Global" } }
          "hi").structured.contextualMessage
        = "User has reported sex: Male. Use this only to tailor educational safety information. hi" ∧
      (buildStructuredQuery
          { initialPage with profileData := { age := some 0, sex := "", country := "Global" } }
          "hi").structured.contextualMessage = "hi" ∧
      (buildStructuredQuery
          { initialPage with profileData := { age := none, sex := "", country := "Global" } }
          "hi").structured.contextualMessage = "hi" := by
  refine ⟨?_, ?_, ?_, ?_, ?_, ?_⟩
  · rw [contextualMessage_eq_clauses, contextualMessage_eq_clauses,
      contextualMessage_eq_clauses]
    simp only [profileClause_none, medicalClause_none, countryClause_global,
      ← profileClause_eq]
    simp [String.append_assoc]
  all_goals
    set_option maxRecDepth 100000 in
    exact rfl

/-! ## The resolver and the sender -/

theorem getBotResponseWithQuery_eq (lc : String → String) (m : String)
    (q : Option StructuredQuery) :
    getBotResponseWithQuery lc m q = getBotResponse lc m :=
  rfl

/-- C13: the value of `getBotResponse` does not depend on its second argument, nor,
through `sendMessage`, on the page state: two pages and the same input text
schedule the same bot message. -/
theorem getBotResponse_ignores_query (toLowerCase : String → String) (m : String)
    (q1 q2 : Option StructuredQuery) (pg1 pg2 : Page) (text : String) :
    getBotResponseWithQuery toLowerCase m q1 = getBotResponseWithQuery toLowerCase m q2 ∧
      getBotResponseWithQuery toLowerCase m
          (some (buildStructuredQuery pg1 m).structured)
        = getBotResponseWithQuery toLowerCase m
          (some (buildStructuredQuery pg2 m).structured) ∧
      (∀ r : JSValue,
        Effect.scheduleBotMessage r ∈ sendMessage toLowerCase pg1 text ↔
          Effect.scheduleBotMessage r ∈ sendMessage toLowerCase pg2 text) := by
  refine ⟨rfl, rfl, ?_⟩
  intro r
  by_cases h : trim text = ""
  · simp [sendMessage, h]
  · simp [sendMessage, h, getBotResponseWithQuery_eq]

/-- C14: an input text whose trimmed form is empty makes `sendMessage` return
with no effect at all (no query built, no chat message, input not cleared, no
timer), while `buildStructuredQuery` on the empty message returns a query whose
`userMessage` is the empty string. -/
theorem sendMessage_empty (toLowerCase : String → String) (pg : Page) (text : String)
    (h : trim text = "") :
    sendMessage toLowerCase pg text = [] ∧
      (buildStructuredQuery pg "").structured.userMessage = "" ∧
      (buildStructuredQuery pg (trim text)).structured.userMessage = "" := by
  refine ⟨by simp [sendMessage, h], rfl, ?_⟩
  rw [h]
  rfl

/-- Witness of C14: a text of blanks has no effect; for contrast, the
text `hi` produces the five effects of a send. -/
theorem sendMessage_empty_witness :
    trim "   " = "" ∧
      sendMessage asciiLower initialPage "   " = [] ∧
      (buildStructuredQuery initialPage "").structured.userMessage = "" ∧
      (sendMessage asciiLower initialPage " hi ").length = 5 :=
  ⟨rfl, (sendMessage_empty asciiLower initialPage "   " rfl).1,
    (sendMessage_empty asciiLower initialPage "   " rfl).2.1, rfl⟩

/-! ## Chip toggling -/

theorem toggleFilter_nodup (t : FilterType) (v : String) (b : Bool) (sf : SelectedFilters)
    (h1 : sf.category.Nodup) (h2 : sf.context.Nodup) :
    (toggleFilter t v b sf).category.Nodup ∧ (toggleFilter t v b sf).context.Nodup := by
  cases t <;> cases b <;>
    by_cases hm : v ∈ sf.category <;> by_cases hn : v ∈ sf.context <;>
    simp [toggleFilter, SelectedFilters.get, SelectedFilters.set, hm, hn, h1, h2,
      List.Nodup.erase, List.nodup_append]

theorem runToggleFilter_nodup (calls : List (FilterType × String × Bool)) :
    ∀ sf : SelectedFilters, sf.category.Nodup → sf.context.Nodup →
      (runToggleFilter calls sf).category.Nodup ∧ (runToggleFilter calls sf).context.Nodup := by
  induction calls with
  | nil => intro sf h1 h2; exact ⟨h1, h2⟩
  | cons c rest ih =>
    intro sf h1 h2
    have h := toggleFilter_nodup c.1 c.2.1 c.2.2 sf h1 h2
    exact ih _ h.1 h.2

/-- C16: from empty lists, any sequence of `toggleFilter` calls, whatever the
class test gives at each call, leaves both lists free of duplicates; a call on one
filter type leaves the list of the other type as it was. -/
theorem toggleFilter_deduplicated (calls : List (FilterType × String × Bool))
    (sf : SelectedFilters) (v : String) (b : Bool) :
    (runToggleFilter calls initialPage.selectedFilters).category.Nodup ∧
      (runToggleFilter calls initialPage.selectedFilters).context.Nodup ∧
      (toggleFilter .category v b sf).context = sf.context ∧
      (toggleFilter .context v b sf).category = sf.category := by
  have h := runToggleFilter_nodup calls initialPage.selectedFilters
    (by simp [initialPage]) (by simp [initialPage])
  refine ⟨h.1, h.2, ?_, ?_⟩
  · cases b <;> by_cases hm : v ∈ sf.category <;>
      simp [toggleFilter, SelectedFilters.get, SelectedFilters.set, hm]
  · cases b <;> by_cases hm : v ∈ sf.context <;>
      simp [toggleFilter, SelectedFilters.get, SelectedFilters.set, hm]

theorem consistent_initial (chips : List String) :
    ConditionPanel.Consistent chips initialConditionPanel := by
  simp [ConditionPanel.Consistent, initialConditionPanel]

/-- Toggling a chip other than `None` in a consistent panel that does not record
`None`. -/
theorem consistent_toggle_other (chips : List String) (c : String) (st : ConditionPanel)
    (hc : c ∈ chips) (hne : c ≠ "None") (hnd : st.chronicConditions.Nodup)
    (hsync : ∀ x, x ∈ st.selectedChips ↔ x ∈ st.chronicConditions)
    (hnone : "None" ∉ st.chronicConditions)
    (hchips : ∀ x ∈ st.chronicConditions, x ∈ chips) (isSelected : Bool)
    (hsel : isSelected = st.selectedChips.contains c) :
    ConditionPanel.Consistent chips
      (if isSelected = true then
        { chronicConditions := st.chronicConditions.filter fun x => x ≠ c
          selectedChips := deselectChip st.selectedChips c }
      else
        { chronicConditions :=
            if ¬ st.chronicConditions.contains c then st.chronicConditions ++ [c]
            else st.chronicConditions
          selectedChips := selectChip st.selectedChips c }) := by
  by_cases hmem : c ∈ st.selectedChips
  · have hs : isSelected = true := by simp [hsel, hmem]
    rw [if_pos hs]
    refine ⟨hnd.filter _, ?_, ?_, ?_⟩
    · intro x
      simp [deselectChip, List.mem_filter, hsync x]
    · intro h
      exact absurd (List.mem_filter.mp h).1 hnone
    · intro x hx
      exact hchips x (List.mem_filter.mp hx).1
  · have hs : ¬ isSelected = true := by simp [hsel, hmem]
    have hmem2 : c ∉ st.chronicConditions := fun h => hmem ((hsync c).mpr h)
    rw [if_neg hs]
    have e1 : (if ¬ st.chronicConditions.contains c = true then st.chronicConditions ++ [c]
        else st.chronicConditions) = st.chronicConditions ++ [c] := by
      simp [hmem2]
    have e2 : selectChip st.selectedChips c = st.selectedChips ++ [c] := by
      simp [selectChip, hmem]
    rw [e1, e2]
    refine ⟨?_, ?_, ?_, ?_⟩
    · rw [List.nodup_append]
      refine ⟨hnd, List.nodup_singleton c, ?_⟩
      intro a ha hb
      rw [List.mem_singleton] at hb
      exact hmem2 (hb ▸ ha)
    · intro x
      simp [List.mem_append, hsync x]
    · intro h
      rw [List.mem_append, List.mem_singleton] at h
      rcases h with h | h
      · exact absurd h hnone
      · exact absurd h.symm hne
    · intro x hx
      rw [List.mem_append, List.mem_singleton] at hx
      rcases hx with hx | hx
      · exact hchips x hx
      · exact hx ▸ hc

/-- One call of `toggleChronicCondition` keeps the panel consistent. -/
theorem consistent_toggle (chips : List String) (c : String) (st : ConditionPanel)
    (h : ConditionPanel.Consistent chips st) :
    ConditionPanel.Consistent chips (toggleChronicCondition chips c st) := by
  obtain ⟨hnd, hsync, hnone, hchips⟩ := h
  unfold toggleChronicCondition
  by_cases hc : c ∈ chips
  swap
  · simpa [hc] using ⟨hnd, hsync, hnone, hchips⟩
  have hc2 : ¬ ¬ chips.contains c = true := by simp [hc]
  rw [if_neg hc2]
  dsimp only
  by_cases hN : c = "None"
  · subst hN
    rw [if_pos rfl]
    by_cases hsel : "None" ∈ st.selectedChips
    · have hs : ¬ ¬ st.selectedChips.contains "None" = true := by simp [hsel]
      rw [if_neg hs]
      have hall := hnone ((hsync "None").mp hsel)
      refine ⟨List.nodup_nil, ?_, by simp, by simp⟩
      intro x
      simp only [deselectChip, List.mem_filter, List.not_mem_nil, iff_false, not_and]
      intro hx
      have : x = "None" := by
        have := (hsync x).mp hx
        rw [hall] at this
        simpa using this
      simp [this]
    · have hs : ¬ st.selectedChips.contains "None" = true := by simp [hsel]
      rw [if_pos hs]
      refine ⟨by simp, ?_, by simp, ?_⟩
      · intro x
        simp [selectChip]
      · intro x hx
        rw [List.mem_singleton] at hx
        exact hx ▸ hc
  · rw [if_neg hN]
    by_cases hdrop : chips.contains "None" = true ∧ st.selectedChips.contains "None" = true
    · rw [if_pos hdrop]
      have hselc : st.selectedChips.contains c
          = (deselectChip st.selectedChips "None").contains c := by
        by_cases hm : c ∈ st.selectedChips <;> simp [deselectChip, hm, hN]
      exact consistent_toggle_other chips c
        { chronicConditions := st.chronicConditions.filter fun x => x ≠ "None"
          selectedChips := deselectChip st.selectedChips "None" }
        hc hN (hnd.filter _)
        (by intro x; simp [deselectChip, List.mem_filter, hsync x])
        (by simp [List.mem_filter])
        (fun x hx => hchips x (List.mem_filter.mp hx).1) _ hselc
    · rw [if_neg hdrop]
      have hnone2 : "None" ∉ st.chronicConditions := by
        intro hmem
        apply hdrop
        have h1 := hchips _ hmem
        have h2 := (hsync _).mpr hmem
        simp [h1, h2]
      exact consistent_toggle_other chips c st hc hN hnd hsync hnone2 hchips _ rfl

theorem consistent_run (chips : List String) (calls : List String) :
    ∀ st : ConditionPanel, ConditionPanel.Consistent chips st →
      ConditionPanel.Consistent chips (runToggleChronicCondition chips calls st) := by
  induction calls with
  | nil => intro st h; exact h
  | cons c rest ih =>
    intro st h
    exact ih _ (consistent_toggle chips c st h)

/-- C15: from the state at load, after any sequence of `toggleChronicCondition`
calls the recorded conditions are exactly `None` alone or do not contain `None`,
and no condition is recorded twice. -/
theorem chronicConditions_none_exclusive (chips : List String) (calls : List String) :
    ((runToggleChronicCondition chips calls initialConditionPanel).chronicConditions
          = ["None"] ∨
        "None" ∉
          (runToggleChronicCondition chips calls initialConditionPanel).chronicConditions) ∧
      (runToggleChronicCondition chips calls initialConditionPanel).chronicConditions.Nodup := by
  obtain ⟨hnd, -, hnone, -⟩ := consistent_run chips calls initialConditionPanel
    (consistent_initial chips)
  refine ⟨?_, hnd⟩
  by_cases h : "None" ∈
      (runToggleChronicCondition chips calls initialConditionPanel).chronicConditions
  · exact Or.inl (hnone h)
  · exact Or.inr h

/-! ## Order of the filters, totality, determinism, serialization -/

/-- C17, as stated, fails: the same two categories selected in the two possible
orders give different query strings and different structured filters. -/
theorem filter_order_counterexample :
    List.Perm ["Pain Relief", "Antibiotic"] ["Antibiotic", "Pain Relief"] ∧
      (buildStructuredQuery (categoryPage "Pain Relief" "Antibiotic") "hi").queryString
        = "userMessage=hi&mode=simple&country=Global&category=Pain%20Relief%2CAntibiotic" ∧
      (buildStructuredQuery (categoryPage "Antibiotic" "Pain Relief") "hi").queryString
        = "userMessage=hi&mode=simple&country=Global&category=Antibiotic%2CPain%20Relief" ∧
      (buildStructuredQuery (categoryPage "Pain Relief" "Antibiotic") "hi").queryString
        ≠ (buildStructuredQuery (categoryPage "Antibiotic" "Pain Relief") "hi").queryString ∧
      (buildStructuredQuery (categoryPage "Pain Relief" "Antibiotic") "hi").structured.filters
        ≠ (buildStructuredQuery (categoryPage "Antibiotic" "Pain Relief")
            "hi").structured.filters := by
  set_option maxRecDepth 100000 in
  exact ⟨List.Perm.swap _ _ _, rfl, rfl, by decide, by decide⟩

theorem drugCategory_eq (pg : Page) (u : String) :
    (buildStructuredQuery pg u).structured.filters.drugCategory
      = (if pg.selectedFilters.category = [] then none else some pg.selectedFilters.category) := by
  by_cases h : pg.selectedFilters.category = [] <;>
    simp [buildStructuredQuery, h, List.length_pos]

theorem context_eq (pg : Page) (u : String) :
    (buildStructuredQuery pg u).structured.filters.context
      = (if pg.selectedFilters.context = [] then none else some pg.selectedFilters.context) := by
  by_cases h : pg.selectedFilters.context = [] <;>
    simp [buildStructuredQuery, h, List.length_pos]

theorem filters_eq (pg : Page) (u : String) :
    (buildStructuredQuery pg u).structured.filters
      = { medicineBrand := (buildStructuredQuery pg u).structured.filters.medicineBrand
          drugCategory :=
            if pg.selectedFilters.category = [] then none else some pg.selectedFilters.category
          context :=
            if pg.selectedFilters.context = [] then none else some pg.selectedFilters.context } := by
  rw [← drugCategory_eq pg u, ← context_eq pg u]

theorem queryString_segments (pg : Page) (u : String) :
    (buildStructuredQuery pg u).queryString
      = ("userMessage=" ++ encodeURIComponent u ++ "&mode=" ++ pg.currentMode
          ++ "&country=" ++ encodeURIComponent pg.selectedCountry
          ++ (if trim pg.medicineBrandValue ≠ "" then
              "&medicineBrand=" ++ encodeURIComponent (trim pg.medicineBrandValue)
            else ""))
        ++ ((if pg.selectedFilters.category ≠ [] then
              "&category=" ++ encodeURIComponent (join "," pg.selectedFilters.category)
            else "")
        ++ (if pg.selectedFilters.context ≠ [] then
              "&context=" ++ encodeURIComponent (join "," pg.selectedFilters.context)
            else "")) := by
  by_cases hb : trim pg.medicineBrandValue = "" <;>
  by_cases hcat : pg.selectedFilters.category = [] <;>
  by_cases hctx : pg.selectedFilters.context = [] <;>
  simp [buildStructuredQuery, hb, hcat, hctx, List.length_pos, String.append_assoc]

/-- C17, amended: two selections with the same values in a different order give
results that agree on the `userMessage`, `mode`, `country` and `medicineBrand`
segments of the query string and on every structured field outside the two lists;
each result keeps its own selection order: `drugCategory` and `context` are the
lists as selected (null together, permutations of one another) and the `category`
and `context` segments are the encoded comma-joins of these lists; the structured
filters of the two results are equal exactly when the two selections list their
values in the same order, and then the query strings are equal too. -/
theorem filter_order_up_to_permutation (pg : Page) (sf : SelectedFilters)
    (userMessage : String) (hcat : pg.selectedFilters.category.Perm sf.category)
    (hctx : pg.selectedFilters.context.Perm sf.context) :
    -- the query strings: a common head, then each selection in its own order
    (buildStructuredQuery pg userMessage).queryString
        = ("userMessage=" ++ encodeURIComponent userMessage ++ "&mode=" ++ pg.currentMode
            ++ "&country=" ++ encodeURIComponent pg.selectedCountry
            ++ (if trim pg.medicineBrandValue ≠ "" then
                "&medicineBrand=" ++ encodeURIComponent (trim pg.medicineBrandValue)
              else ""))
          ++ ((if pg.selectedFilters.category ≠ [] then
                "&category=" ++ encodeURIComponent (join "," pg.selectedFilters.category)
              else "")
          ++ (if pg.selectedFilters.context ≠ [] then
                "&context=" ++ encodeURIComponent (join "," pg.selectedFilters.context)
              else "")) ∧
      (buildStructuredQuery { pg with selectedFilters := sf } userMessage).queryString
        = ("userMessage=" ++ encodeURIComponent userMessage ++ "&mode=" ++ pg.currentMode
            ++ "&country=" ++ encodeURIComponent pg.selectedCountry
            ++ (if trim pg.medicineBrandValue ≠ "" then
                "&medicineBrand=" ++ encodeURIComponent (trim pg.medicineBrandValue)
              else ""))
          ++ ((if sf.category ≠ [] then
                "&category=" ++ encodeURIComponent (join "," sf.category)
              else "")
          ++ (if sf.context ≠ [] then
                "&context=" ++ encodeURIComponent (join "," sf.context)
              else "")) ∧
      -- the lists of the structured filters: as selected, null together
      (buildStructuredQuery pg userMessage).structured.filters.drugCategory
        = (if pg.selectedFilters.category = [] then none
          else some pg.selectedFilters.category) ∧
      (buildStructuredQuery { pg with selectedFilters := sf }
          userMessage).structured.filters.drugCategory
        = (if sf.category = [] then none else some sf.category) ∧
      (buildStructuredQuery pg userMessage).structured.filters.context
        = (if pg.selectedFilters.context = [] then none
          else some pg.selectedFilters.context) ∧
      (buildStructuredQuery { pg with selectedFilters := sf }
          userMessage).structured.filters.context
        = (if sf.context = [] then none else some sf.context) ∧
      (pg.selectedFilters.category = [] ↔ sf.category = []) ∧
      (pg.selectedFilters.context = [] ↔ sf.context = []) ∧
      -- equality of the results is equality of the orders
      ((buildStructuredQuery { pg with selectedFilters := sf } userMessage).structured.filters
          = (buildStructuredQuery pg userMessage).structured.filters ↔
        sf.category = pg.selectedFilters.category ∧ sf.context = pg.selectedFilters.context) ∧
      (sf.category = pg.selectedFilters.category → sf.context = pg.selectedFilters.context →
        (buildStructuredQuery { pg with selectedFilters := sf } userMessage).queryString
          = (buildStructuredQuery pg userMessage).queryString) ∧
      -- everything else is shared
      (buildStructuredQuery { pg with selectedFilters := sf } userMessage).structured.filters.medicineBrand
        = (buildStructuredQuery pg userMessage).structured.filters.medicineBrand ∧
      (buildStructuredQuery { pg with selectedFilters := sf } userMessage).structured.userMessage
        = (buildStructuredQuery pg userMessage).structured.userMessage ∧
      (buildStructuredQuery { pg with selectedFilters := sf }
          userMessage).structured.contextualMessage
        = (buildStructuredQuery pg userMessage).structured.contextualMessage ∧
      (buildStructuredQuery { pg with selectedFilters := sf } userMessage).structured.mode
        = (buildStructuredQuery pg userMessage).structured.mode ∧
      (buildStructuredQuery { pg with selectedFilters := sf } userMessage).structured.country
        = (buildStructuredQuery pg userMessage).structured.country ∧
      (buildStructuredQuery { pg with selectedFilters := sf } userMessage).structured.profile
        = (buildStructuredQuery pg userMessage).structured.profile ∧
      (buildStructuredQuery { pg with selectedFilters := sf }
          userMessage).structured.patientHistory
        = (buildStructuredQuery pg userMessage).structured.patientHistory := by
  have hc1 : pg.selectedFilters.category = [] ↔ sf.category = [] :=
    ⟨fun h => (h ▸ hcat).symm.eq_nil, fun h => (h ▸ hcat).eq_nil⟩
  have hc2 : pg.selectedFilters.context = [] ↔ sf.context = [] :=
    ⟨fun h => (h ▸ hctx).symm.eq_nil, fun h => (h ▸ hctx).eq_nil⟩
  refine ⟨queryString_segments pg userMessage,
    queryString_segments { pg with selectedFilters := sf } userMessage,
    drugCategory_eq pg userMessage, drugCategory_eq { pg with selectedFilters := sf } userMessage,
    context_eq pg userMessage, context_eq { pg with selectedFilters := sf } userMessage,
    hc1, hc2, ?_, ?_, rfl, rfl, rfl, rfl, rfl, rfl, rfl⟩
  · rw [filters_eq pg userMessage, filters_eq { pg with selectedFilters := sf } userMessage]
    constructor
    · intro h
      have h1 := congrArg QueryFilters.drugCategory h
      have h2 := congrArg QueryFilters.context h
      simp only at h1 h2
      constructor
      · by_cases e : sf.category = []
        · rw [e, hc1.mpr e]
        · have e2 : pg.selectedFilters.category ≠ [] := fun h3 => e (hc1.mp h3)
          rw [if_neg e, if_neg e2] at h1
          exact Option.some.inj h1
      · by_cases e : sf.context = []
        · rw [e, hc2.mpr e]
        · have e2 : pg.selectedFilters.context ≠ [] := fun h3 => e (hc2.mp h3)
          rw [if_neg e, if_neg e2] at h2
          exact Option.some.inj h2
    · rintro ⟨h1, h2⟩
      have hb : (buildStructuredQuery { pg with selectedFilters := sf }
            userMessage).structured.filters.medicineBrand
          = (buildStructuredQuery pg userMessage).structured.filters.medicineBrand := rfl
      rw [hb, h1, h2]
  · intro h1 h2
    rw [queryString_segments pg userMessage,
      queryString_segments { pg with selectedFilters := sf } userMessage]
    simp only [h1, h2]

/-- Witness of C17 (amended) on the two orders of the categories `Pain Relief` and
`Antibiotic`: each query string carries its own order after the common head. -/
theorem filter_order_up_to_permutation_witness :
    (buildStructuredQuery (categoryPage "Pain Relief" "Antibiotic") "hi").queryString
        = "userMessage=hi&mode=simple&country=Global" ++ ("&category=Pain%20Relief%2CAntibiotic" ++ "") ∧
      (buildStructuredQuery
          { categoryPage "Pain Relief" "Antibiotic" with
            selectedFilters := { category := ["Antibiotic", "Pain Relief"], context := [] } }
          "hi").queryString
        = "userMessage=hi&mode=simple&country=Global" ++ ("&category=Antibiotic%2CPain%20Relief" ++ "") ∧
      (buildStructuredQuery
          { categoryPage "Pain Relief" "Antibiotic" with
            selectedFilters := { category := ["Antibiotic", "Pain Relief"], context := [] } }
          "hi").structured.filters.drugCategory = some ["Antibiotic", "Pain Relief"] ∧
      (buildStructuredQuery
          { categoryPage "Pain Relief" "Antibiotic" with
            selectedFilters := { category := ["Antibiotic", "Pain Relief"], context := [] } }
          "hi").structured.contextualMessage
        = (buildStructuredQuery (categoryPage "Pain Relief" "Antibiotic")
            "hi").structured.contextualMessage := by
  have h := filter_order_up_to_permutation (categoryPage "Pain Relief" "Antibiotic")
    { category := ["Antibiotic", "Pain Relief"], context := [] } "hi"
    (List.Perm.swap _ _ _) (List.Perm.refl _)
  set_option maxRecDepth 100000 in
  exact ⟨h.1.trans rfl, h.2.1.trans rfl, h.2.2.2.1.trans rfl, h.2.2.2.2.2.2.2.2.2.2.2.2.1⟩

theorem partialMatch_value (lc : String → String) (lm : String) :
    ∀ entries : List (String × String),
      ∃ t, partialMatch lc lm entries = .str t ∧
        (t = defaultResponse ∨ t ∈ entries.map Prod.snd) := by
  intro entries
  induction entries with
  | nil => exact ⟨defaultResponse, rfl, Or.inl rfl⟩
  | cons e rest ih =>
    obtain ⟨k, v⟩ := e
    by_cases hk : includes lm (lc k) = true
    · exact ⟨v, by simp [partialMatch, hk], Or.inr (by simp)⟩
    · obtain ⟨t, ht, hmem⟩ := ih
      refine ⟨t, by simp [partialMatch, hk, ht], ?_⟩
      rcases hmem with h | h
      · exact Or.inl h
      · exact Or.inr (by simp [h])

/-- A message that is a declared key gets the value stored under it. -/
theorem getBotResponse_of_key (lc : String → String) (key value : String)
    (h : (key, value) ∈ mockResponses) : getBotResponse lc key = .str value := by
  simp only [mockResponses, List.mem_cons, Prod.mk.injEq, List.mem_singleton,
    List.not_mem_nil, or_false] at h
  rcases h with ⟨rfl, rfl⟩ | ⟨rfl, rfl⟩ | ⟨rfl, rfl⟩ | ⟨rfl, rfl⟩ | ⟨rfl, rfl⟩ | ⟨rfl, rfl⟩ |
    ⟨rfl, rfl⟩ | ⟨rfl, rfl⟩ | ⟨rfl, rfl⟩ | ⟨rfl, rfl⟩ | ⟨rfl, rfl⟩ | ⟨rfl, rfl⟩ | ⟨rfl, rfl⟩ <;> rfl

/-- C18, evaluated at the message `toString`: the value returned is the inherited
member of `Object.prototype`, which is no string at all; for every message that is
not a name of `Object.prototype`, the value is a string, one of the stored values
or the fallback text. -/
theorem getBotResponse_not_string_valued :
    (∀ toLowerCase : String → String,
        getBotResponse toLowerCase "toString" = JSValue.inherited "toString") ∧
      (∀ toLowerCase : String → String,
        ¬ ∃ t, getBotResponse toLowerCase "toString" = JSValue.str t) ∧
      (∀ (toLowerCase : String → String) (M : String), M ∉ objectPrototypeNames →
        ∃ t, getBotResponse toLowerCase M = JSValue.str t ∧
          (t = defaultResponse ∨ t ∈ mockResponses.map Prod.snd)) := by
  refine ⟨fun _ => rfl, ?_, ?_⟩
  · rintro lc ⟨t, ht⟩
    have h : getBotResponse lc "toString" = JSValue.inherited "toString" := rfl
    rw [h] at ht
    cases ht
  · intro lc M hM
    by_cases hkey : ∃ kv ∈ mockResponses, M = kv.1
    · obtain ⟨⟨k, v⟩, hkv, hMk⟩ := hkey
      rw [show M = k from hMk]
      exact ⟨v, getBotResponse_of_key lc k v hkv,
        Or.inr (List.mem_map.mpr ⟨(k, v), hkv, rfl⟩)⟩
    · have hne : ∀ kv ∈ mockResponses, M ≠ kv.1 := fun kv hkv heq => hkey ⟨kv, hkv, heq⟩
      rw [getBotResponse_of_not_own_nor_inherited lc M hne hM]
      exact partialMatch_value lc (lc M) mockResponses

theorem countryContextM_run (u : String) (w : World) :
    (countryContextM u).run w = (countryClause w.page.selectedCountry ++ u, w) := by
  by_cases h : w.page.selectedCountry ≠ "" ∧ w.page.selectedCountry ≠ "Global" <;>
    simp [countryContextM, countryClause, h, String.append_assoc]

theorem profileContextM_run (m : String) (w : World) :
    (profileContextM m).run w = (profileClause w.page.profileData ++ m, w) := by
  rcases hage : w.page.profileData.age with _ | a
  · by_cases hsex : w.page.profileData.sex = "" <;>
      simp [profileContextM, profileClause, hasAge, profileParts, hage, hsex,
        String.append_assoc]
  · by_cases hpos : 0 < a <;> by_cases hsex : w.page.profileData.sex = "" <;>
      simp [profileContextM, profileClause, hasAge, profileParts, hage, hpos, hsex,
        String.append_assoc]

theorem contextPartsM_run (w : World) :
    contextPartsM.run w = (contextParts w.page.patientHistory, w) := by
  by_cases ha : w.page.patientHistory.allergies = [] <;>
  by_cases hc : w.page.patientHistory.chronicConditions = [] <;>
  by_cases hn : "None" ∈ w.page.patientHistory.chronicConditions <;>
  by_cases hp : w.page.patientHistory.pregnancyStatus = true <;>
  simp [contextPartsM, contextParts, ha, hc, hn, hp, List.length_pos]

theorem medicalContextM_run (m : String) (w : World) :
    (medicalContextM m).run w
      = ((medicalClause w.page.patientHistory ++ m,
          decide (w.page.patientHistory.allergies.length > 0) ||
            decide (w.page.patientHistory.chronicConditions.length > 0) ||
            w.page.patientHistory.pregnancyStatus), w) := by
  by_cases h1 : (0 < w.page.patientHistory.allergies.length ∨
      0 < w.page.patientHistory.chronicConditions.length) ∨
      w.page.patientHistory.pregnancyStatus = true <;>
  by_cases h2 : 0 < (contextParts w.page.patientHistory).length <;>
  simp [medicalContextM, medicalClause, contextPartsM_run, h1, h2, String.append_assoc]

theorem queryStringM_run (u : String) (w : World) :
    (queryStringM u (trim w.page.medicineBrandValue)).run w
      = ((buildStructuredQuery w.page u).queryString, w) := by
  by_cases hb : trim w.page.medicineBrandValue = "" <;>
  by_cases hcat : w.page.selectedFilters.category = [] <;>
  by_cases hctx : w.page.selectedFilters.context = [] <;>
  simp [queryStringM, buildStructuredQuery, hb, hcat, hctx, List.length_pos,
    String.append_assoc]

/-- The script computes what the function `buildStructuredQuery` of the page
computes, and hands the world back as it received it. -/
theorem buildStructuredQueryM_run (u : String) (w : World) :
    (buildStructuredQueryM u).run w = (buildStructuredQuery w.page u, w) := by
  have hctx := contextualMessage_eq_clauses w.page u
  have hq := queryStringM_run u w
  have hshape : buildStructuredQuery w.page u
      = { structured :=
            { (buildStructuredQuery w.page u).structured with
              contextualMessage := (buildStructuredQuery w.page u).structured.contextualMessage }
          queryString := (buildStructuredQuery w.page u).queryString } := rfl
  rw [hshape, hctx]
  simp only [buildStructuredQueryM, StateT.run_bind, StateT.run_get, StateT.run_pure,
    countryContextM_run, profileContextM_run, medicalContextM_run, hq, bind_pure_comp,
    Id.pure_eq, Id.bind_eq, Id.map_eq, StateT.run_map]
  rfl

/-- A script that draws a random number does change the world. -/
theorem mathRandom_changes_world (r : Nat) (rest : List Nat) (pg : Page) (c : Nat) :
    (mathRandom.run { page := pg, randoms := r :: rest, clock := c }).2
      ≠ { page := pg, randoms := r :: rest, clock := c } := by
  intro h
  have h2 := congrArg World.randoms h
  have h3 := congrArg List.length h2
  simp [mathRandom, StateT.run] at h3

/-- C19: run as a script, `buildStructuredQuery` hands back the world as it
received it (module state, brand field, pending random outcomes and clock), its
result is a function of the page state and the message alone, and a second run
with the same message returns an equal structured query and query string. -/
theorem buildStructuredQuery_deterministic (userMessage : String) (w w2 : World) :
    ((buildStructuredQueryM userMessage).run w).2 = w ∧
      (w2.page = w.page →
        ((buildStructuredQueryM userMessage).run w2).1
          = ((buildStructuredQueryM userMessage).run w).1) ∧
      ((buildStructuredQueryM userMessage).run
          ((buildStructuredQueryM userMessage).run w).2).1
        = ((buildStructuredQueryM userMessage).run w).1 ∧
      ((buildStructuredQueryM userMessage).run w).1 = buildStructuredQuery w.page userMessage := by
  refine ⟨by rw [buildStructuredQueryM_run], ?_, by simp only [buildStructuredQueryM_run], by
    rw [buildStructuredQueryM_run]⟩
  intro h
  rw [buildStructuredQueryM_run, buildStructuredQueryM_run, h]

/-- Witness of C19: two worlds with the page of the India example and different
clocks and random outcomes give the same result, and the world is handed back. -/
theorem buildStructuredQuery_deterministic_witness :
    ((buildStructuredQueryM "hi").run { page := indiaPage, randoms := [3, 1], clock := 7 }).2
        = { page := indiaPage, randoms := [3, 1], clock := 7 } ∧
      ((buildStructuredQueryM "hi").run { page := indiaPage, randoms := [], clock := 99 }).1
        = ((buildStructuredQueryM "hi").run
            { page := indiaPage, randoms := [3, 1], clock := 7 }).1 :=
  ⟨(buildStructuredQuery_deterministic "hi"
      { page := indiaPage, randoms := [3, 1], clock := 7 }
      { page := indiaPage, randoms := [], clock := 99 }).1,
    (buildStructuredQuery_deterministic "hi"
      { page := indiaPage, randoms := [3, 1], clock := 7 }
      { page := indiaPage, randoms := [], clock := 99 }).2.1 rfl⟩

/-- C20: the query string is the flat serialization of the structured object: the
`userMessage`, `mode` and `country` segments carry the fields of these names, and
a `medicineBrand`, `category` or `context` segment is present exactly when the
field is non-null and then encodes its value; the two modes are left as they are by
the encoding. -/
theorem queryString_of_structured (pg : Page) (userMessage : String) :
    (buildStructuredQuery pg userMessage).queryString
        = queryStringOfStructured (buildStructuredQuery pg userMessage).structured ∧
      encodeURIComponent "simple" = "simple" ∧
      encodeURIComponent "advanced" = "advanced" := by
  refine ⟨?_, rfl, rfl⟩
  by_cases hb : trim pg.medicineBrandValue = "" <;>
  by_cases hcat : pg.selectedFilters.category = [] <;>
  by_cases hctx : pg.selectedFilters.context = [] <;>
  simp [buildStructuredQuery, queryStringOfStructured, hb, hcat, hctx, List.length_pos,
    String.append_assoc]

/-! ## Allergies -/

theorem addAllergy_keeps (text : String) (l : List String) (hnd : l.Nodup)
    (hne : "" ∉ l) : (addAllergy text l).Nodup ∧ "" ∉ addAllergy text l := by
  unfold addAllergy
  dsimp only
  by_cases h1 : trim text = ""
  · rw [if_pos h1]
    exact ⟨hnd, hne⟩
  · rw [if_neg h1]
    by_cases h2 : trim text ∈ l
    · rw [if_pos (by simpa using h2)]
      exact ⟨hnd, hne⟩
    · rw [if_neg (by simpa using h2)]
      refine ⟨?_, ?_⟩
      · rw [List.nodup_append]
        refine ⟨hnd, List.nodup_singleton _, ?_⟩
        intro a ha hb
        rw [List.mem_singleton] at hb
        exact h2 (hb ▸ ha)
      · intro h
        rw [List.mem_append, List.mem_singleton] at h
        rcases h with h | h
        · exact hne h
        · exact h1 h.symm

theorem removeAllergy_keeps (a : String) (l : List String) (hnd : l.Nodup)
    (hne : "" ∉ l) : (removeAllergy a l).Nodup ∧ "" ∉ removeAllergy a l :=
  ⟨hnd.erase a, fun h => hne (List.mem_of_mem_erase h)⟩

theorem runAllergyCalls_keeps (calls : List AllergyCall) :
    ∀ l : List String, l.Nodup → "" ∉ l →
      (runAllergyCalls calls l).Nodup ∧ "" ∉ runAllergyCalls calls l := by
  induction calls with
  | nil => intro l h1 h2; exact ⟨h1, h2⟩
  | cons c rest ih =>
    intro l h1 h2
    cases c with
    | add t =>
      have h := addAllergy_keeps t l h1 h2
      exact ih _ h.1 h.2
    | remove a =>
      have h := removeAllergy_keeps a l h1 h2
      exact ih _ h.1 h.2

/-- C21: `addAllergy` leaves the list as it is when the trimmed text is empty or
already present and appends the trimmed text otherwise; from the empty list, any
sequence of `addAllergy` and `removeAllergy` calls gives a list without duplicate
and without empty entry. -/
theorem allergies_set (text : String) (l : List String) (calls : List AllergyCall) :
    addAllergy text l
        = (if trim text = "" ∨ trim text ∈ l then l else l ++ [trim text]) ∧
      (runAllergyCalls calls []).Nodup ∧
      "" ∉ runAllergyCalls calls [] := by
  refine ⟨?_, runAllergyCalls_keeps calls [] List.nodup_nil (List.not_mem_nil _)⟩
  by_cases h1 : trim text = "" <;> by_cases h2 : trim text ∈ l <;>
    simp [addAllergy, h1, h2]

/-- C28: adding a non-blank text that is not in the list and then removing it
gives the list back; removing a value that is not in the list changes nothing. -/
theorem removeAllergy_undoes_addAllergy (l : List String) (text x : String)
    (hblank : trim text ≠ "") (hnew : trim text ∉ l) (hx : x ∉ l) :
    removeAllergy (trim text) (addAllergy text l) = l ∧ removeAllergy x l = l := by
  refine ⟨?_, List.erase_of_not_mem hx⟩
  have h : addAllergy text l = l ++ [trim text] := by
    simp [addAllergy, hblank, hnew]
  rw [h, removeAllergy, List.erase_append_right _ hnew]
  simp

/-- Witness of C28 on the list holding `penicillin`, the text ` latex ` and the
absent value `pollen`. -/
theorem removeAllergy_undoes_addAllergy_witness :
    trim " latex " = "latex" ∧
      addAllergy " latex " ["penicillin"] = ["penicillin", "latex"] ∧
      removeAllergy (trim " latex ") (addAllergy " latex " ["penicillin"]) = ["penicillin"] ∧
      removeAllergy "pollen" ["penicillin"] = ["penicillin"] :=
  ⟨rfl, rfl,
    (removeAllergy_undoes_addAllergy ["penicillin"] " latex " "pollen" (by decide) (by decide)
      (by decide)).1,
    (removeAllergy_undoes_addAllergy ["penicillin"] " latex " "pollen" (by decide) (by decide)
      (by decide)).2⟩

/-! ## Sentinel-only history -/

/-- C22: with the history holding only the chronic condition `None`, no
medical-history clause is added (the contextual message is the one of the empty
history), and the `patientHistory` field is an object whose three fields are
null. -/
theorem sentinel_only_history (pg : Page) (userMessage : String)
    (ha : pg.patientHistory.allergies = [])
    (hc : pg.patientHistory.chronicConditions = ["None"])
    (hp : pg.patientHistory.pregnancyStatus = false) :
    (buildStructuredQuery pg userMessage).structured.contextualMessage
        = (buildStructuredQuery
            { pg with
              patientHistory := { allergies := [], chronicConditions := [], pregnancyStatus := false } }
            userMessage).structured.contextualMessage ∧
      (buildStructuredQuery pg userMessage).structured.patientHistory
        = some { allergies := none, chronicConditions := none, pregnancyStatus := none } := by
  constructor
  · rw [contextualMessage_eq_clauses, contextualMessage_eq_clauses]
    have h1 : medicalClause pg.patientHistory = "" := by
      simp [medicalClause, contextParts, ha, hc, hp]
    simp [h1, medicalClause_none]
  · simp [buildStructuredQuery, ha, hc, hp]

/-- Witness of C22 on the page at load with the sentinel condition selected. -/
theorem sentinel_only_history_witness :
    (buildStructuredQuery sentinelPage "hi").structured.contextualMessage
        = (buildStructuredQuery
            { sentinelPage with
              patientHistory := { allergies := [], chronicConditions := [], pregnancyStatus := false } }
            "hi").structured.contextualMessage ∧
      (buildStructuredQuery sentinelPage "hi").structured.patientHistory
        = some { allergies := none, chronicConditions := none, pregnancyStatus := none } :=
  sentinel_only_history sentinelPage "hi" rfl rfl rfl

/-! ## Medicine equivalents -/

theorem embeds_tail (a x : String) : Embeds x (a ++ x) :=
  ⟨a, "", by simp⟩

theorem embeds_left {x a : String} (b : String) (h : Embeds x a) : Embeds x (a ++ b) := by
  obtain ⟨pre, post, rfl⟩ := h
  exact ⟨pre, post ++ b, by simp [String.append_assoc]⟩

theorem embeds_paracetamol (f t n : String) :
    Embeds n (paracetamolResponse f t n) ∧ Embeds f (paracetamolResponse f t n) ∧
      Embeds t (paracetamolResponse f t n) := by
  unfold paracetamolResponse
  refine ⟨?_, ?_, ?_⟩ <;>
    repeat (first | exact embeds_tail _ _ | apply embeds_left)

theorem embeds_ibuprofen (f t n : String) :
    Embeds n (ibuprofenResponse f t n) ∧ Embeds f (ibuprofenResponse f t n) ∧
      Embeds t (ibuprofenResponse f t n) := by
  unfold ibuprofenResponse
  refine ⟨?_, ?_, ?_⟩ <;>
    repeat (first | exact embeds_tail _ _ | apply embeds_left)

theorem embeds_default (f t n : String) :
    Embeds n (defaultEquivalentResponse f t n) ∧
      Embeds f (defaultEquivalentResponse f t n) ∧
      Embeds t (defaultEquivalentResponse f t n) := by
  unfold defaultEquivalentResponse
  refine ⟨?_, ?_, ?_⟩ <;>
    repeat (first | exact embeds_tail _ _ | apply embeds_left)

/-- C23: `generateMockEquivalentResponse` returns the Paracetamol text when the
lower-cased name contains `paracetamol` or `acetaminophen`, else the Ibuprofen text
when it contains `ibuprofen`, else the default text; a name containing both
`paracetamol` and `ibuprofen` gets the Paracetamol text; the returned text embeds
the medicine name and both countries verbatim. -/
theorem generateMockEquivalentResponse_selection (toLowerCase : String → String)
    (fromCountry toCountry medicineName : String) :
    generateMockEquivalentResponse toLowerCase fromCountry toCountry medicineName
        = (if includes (toLowerCase medicineName) "paracetamol" = true ∨
              includes (toLowerCase medicineName) "acetaminophen" = true then
            paracetamolResponse fromCountry toCountry medicineName
          else if includes (toLowerCase medicineName) "ibuprofen" = true then
            ibuprofenResponse fromCountry toCountry medicineName
          else defaultEquivalentResponse fromCountry toCountry medicineName) ∧
      (includes (toLowerCase medicineName) "paracetamol" = true →
        includes (toLowerCase medicineName) "ibuprofen" = true →
        generateMockEquivalentResponse toLowerCase fromCountry toCountry medicineName
          = paracetamolResponse fromCountry toCountry medicineName) ∧
      Embeds medicineName
        (generateMockEquivalentResponse toLowerCase fromCountry toCountry medicineName) ∧
      Embeds fromCountry
        (generateMockEquivalentResponse toLowerCase fromCountry toCountry medicineName) ∧
      Embeds toCountry
        (generateMockEquivalentResponse toLowerCase fromCountry toCountry medicineName) := by
  have hp := embeds_paracetamol fromCountry toCountry medicineName
  have hi := embeds_ibuprofen fromCountry toCountry medicineName
  have hd := embeds_default fromCountry toCountry medicineName
  by_cases h1 : includes (toLowerCase medicineName) "paracetamol" = true <;>
    by_cases h2 : includes (toLowerCase medicineName) "acetaminophen" = true <;>
    by_cases h3 : includes (toLowerCase medicineName) "ibuprofen" = true <;>
    simp [generateMockEquivalentResponse, h1, h2, h3, hp, hi, hd]

/-- Witness of C23: a name with both `Paracetamol` and `Ibuprofen` gets the
Paracetamol text, `Advil (IBUPROFEN)` the Ibuprofen text, `Aspirin` the default
text. -/
theorem generateMockEquivalentResponse_selection_witness :
    generateMockEquivalentResponse asciiLower "India" "USA" "Paracetamol + Ibuprofen"
        = paracetamolResponse "India" "USA" "Paracetamol + Ibuprofen" ∧
      generateMockEquivalentResponse asciiLower "India" "USA" "Advil (IBUPROFEN)"
        = ibuprofenResponse "India" "USA" "Advil (IBUPROFEN)" ∧
      generateMockEquivalentResponse asciiLower "India" "USA" "Aspirin"
        = defaultEquivalentResponse "India" "USA" "Aspirin" :=
  ⟨(generateMockEquivalentResponse_selection asciiLower "India" "USA"
      "Paracetamol + Ibuprofen").2.1 rfl rfl, rfl, rfl⟩

/-! ## The two age-coercion paths -/

/-- C26: for every text of the age field, `updateProfileData` and
`validateAgeInput` store the same age, and that age is absent or an integer from 1
to 150. -/
theorem age_paths_agree (text : String) (checkedSex : Option String)
    (selectedCountry : String) (pd : ProfileData) :
    (updateProfileData (some text) checkedSex selectedCountry pd).age
        = (validateAgeInput text pd).2.age ∧
      ((validateAgeInput text pd).2.age = none ∨
        ∃ n : Int, (validateAgeInput text pd).2.age = some n ∧ 1 ≤ n ∧ n ≤ 150) ∧
      ((updateProfileData (some text) checkedSex selectedCountry pd).age = none ∨
        ∃ n : Int, (updateProfileData (some text) checkedSex selectedCountry pd).age = some n ∧
          1 ≤ n ∧ n ≤ 150) := by
  have key : (updateProfileData (some text) checkedSex selectedCountry pd).age
        = (validateAgeInput text pd).2.age ∧
      ((validateAgeInput text pd).2.age = none ∨
        ∃ n : Int, (validateAgeInput text pd).2.age = some n ∧ 1 ≤ n ∧ n ≤ 150) := by
    by_cases h : trim text = ""
    · cases checkedSex <;> simp [updateProfileData, validateAgeInput, h]
    · rcases hparse : parseInt10 (trim text) with _ | n
      · cases checkedSex <;> simp [updateProfileData, validateAgeInput, h, hparse]
      · by_cases hr : 0 < n ∧ n ≤ 150
        · have hr2 : ¬ (n < 1 ∨ n > 150) := by omega
          have hr3 : 1 ≤ n := by omega
          cases checkedSex <;>
            simp [updateProfileData, validateAgeInput, h, hparse, hr, hr2, hr3]
        · have hr2 : n < 1 ∨ n > 150 := by omega
          cases checkedSex <;>
            simp [updateProfileData, validateAgeInput, h, hparse, hr, hr2]
  exact ⟨key.1, key.2, key.1 ▸ key.2⟩

/-! ## The exact-match step, letter case, problem buttons -/

theorem partialMatch_congr (lc1 lc2 : String → String) (lm : String) :
    ∀ entries : List (String × String), (∀ kv ∈ entries, lc1 kv.1 = lc2 kv.1) →
      partialMatch lc1 lm entries = partialMatch lc2 lm entries := by
  intro entries
  induction entries with
  | nil => intro _; rfl
  | cons e rest ih =>
    obtain ⟨k, v⟩ := e
    intro h
    have hk : lc1 k = lc2 k := h (k, v) (List.mem_cons_self _ _)
    have hrest := ih (fun kv hkv => h kv (List.mem_cons_of_mem _ hkv))
    simp only [partialMatch, hk, hrest]

theorem lowerCase_keys (lc : String → String) (hlc : LowerCaseOnAscii lc) :
    ∀ kv ∈ mockResponses, lc kv.1 = asciiLower kv.1 :=
  fun kv hkv => hlc kv.1 (List.all_eq_true.mp names_ascii.1 kv hkv)

/-- On an ASCII message the scan does not depend on what `toLowerCase` does outside
ASCII. -/
theorem scanOnlyResponse_ascii (lc : String → String) (hlc : LowerCaseOnAscii lc)
    (M : String) (hM : isAscii M = true) :
    scanOnlyResponse lc M = scanOnlyResponse asciiLower M := by
  unfold scanOnlyResponse
  rw [hlc M hM]
  exact partialMatch_congr lc asciiLower _ mockResponses (lowerCase_keys lc hlc)

theorem getBotResponse_ascii (lc : String → String) (hlc : LowerCaseOnAscii lc)
    (M : String) (hM : isAscii M = true) :
    getBotResponse lc M = getBotResponse asciiLower M := by
  have h := scanOnlyResponse_ascii lc hlc M hM
  unfold scanOnlyResponse at h
  simp only [getBotResponse, h]

set_option maxRecDepth 1000000 in
/-- For every declared key, evaluated with ASCII lower-casing: the key and the
message of its problem button are ASCII, and the exact match, the scan alone and
the message of the problem button all give the value stored under the key. -/
theorem keys_evaluated :
    (mockResponses.all fun kv =>
      isAscii kv.1 && isAscii (problemMessage asciiLower kv.1) &&
        (scanOnlyResponse asciiLower kv.1 == JSValue.str kv.2) &&
        (getBotResponse asciiLower kv.1 == JSValue.str kv.2) &&
        (getBotResponse asciiLower (problemMessage asciiLower kv.1) == JSValue.str kv.2))
      = true :=
  rfl

theorem keys_evaluated_at (kv : String × String) (h : kv ∈ mockResponses) :
    isAscii kv.1 = true ∧ isAscii (problemMessage asciiLower kv.1) = true ∧
      scanOnlyResponse asciiLower kv.1 = JSValue.str kv.2 ∧
      getBotResponse asciiLower kv.1 = JSValue.str kv.2 ∧
      getBotResponse asciiLower (problemMessage asciiLower kv.1) = JSValue.str kv.2 := by
  have := List.all_eq_true.mp keys_evaluated kv h
  simpa [Bool.and_eq_true, and_assoc] using this

/-- Outside the names of `Object.prototype`, the resolver is the scan alone. -/
theorem getBotResponse_eq_scanOnly (lc : String → String) (hlc : LowerCaseOnAscii lc)
    (M : String) (hM : M ∉ objectPrototypeNames) :
    getBotResponse lc M = scanOnlyResponse lc M := by
  by_cases hkey : ∃ kv ∈ mockResponses, M = kv.1
  · obtain ⟨kv, hkv, hMk⟩ := hkey
    obtain ⟨ha, -, hs, hg, -⟩ := keys_evaluated_at kv hkv
    rw [hMk, getBotResponse_ascii lc hlc kv.1 ha, scanOnlyResponse_ascii lc hlc kv.1 ha, hs, hg]
  · have hne : ∀ kv ∈ mockResponses, M ≠ kv.1 := fun kv hkv heq => hkey ⟨kv, hkv, heq⟩
    exact getBotResponse_of_not_own_nor_inherited lc M hne hM

/-- C24, evaluated at the message `valueOf`: the exact-match step returns the
inherited member of `Object.prototype` where the scan alone returns the fallback
text, so the step is not redundant there; for every message that is not a name of
`Object.prototype` the resolver and the scan alone agree. -/
theorem exact_match_not_redundant :
    (∀ toLowerCase : String → String,
        getBotResponse toLowerCase "valueOf" = JSValue.inherited "valueOf") ∧
      scanOnlyResponse asciiLower "valueOf" = JSValue.str defaultResponse ∧
      getBotResponse asciiLower "valueOf" ≠ scanOnlyResponse asciiLower "valueOf" ∧
      (∀ (toLowerCase : String → String) (M : String), LowerCaseOnAscii toLowerCase →
        M ∉ objectPrototypeNames →
        getBotResponse toLowerCase M = scanOnlyResponse toLowerCase M) := by
  have h1 : getBotResponse asciiLower "valueOf" = JSValue.inherited "valueOf" := rfl
  have h2 : scanOnlyResponse asciiLower "valueOf" = JSValue.str defaultResponse := rfl
  refine ⟨fun _ => rfl, h2, ?_, fun lc M hlc hM => getBotResponse_eq_scanOnly lc hlc M hM⟩
  rw [h1, h2]
  exact fun h => JSValue.noConfusion h

/-- C25, evaluated at `hasOwnProperty` and `HASOWNPROPERTY`: the lower-case forms
are equal and the values differ; `Fever`, `FEVER` and `fever` agree; any two
messages with equal lower-case forms, neither a name of `Object.prototype`, get the
same value. -/
theorem case_insensitivity_fails :
    asciiLower "HASOWNPROPERTY" = asciiLower "hasOwnProperty" ∧
      getBotResponse asciiLower "hasOwnProperty" = JSValue.inherited "hasOwnProperty" ∧
      getBotResponse asciiLower "HASOWNPROPERTY" = JSValue.str defaultResponse ∧
      getBotResponse asciiLower "HASOWNPROPERTY" ≠ getBotResponse asciiLower "hasOwnProperty" ∧
      getBotResponse asciiLower "FEVER" = getBotResponse asciiLower "Fever" ∧
      getBotResponse asciiLower "fever" = getBotResponse asciiLower "Fever" ∧
      (∀ (toLowerCase : String → String) (M1 M2 : String), LowerCaseOnAscii toLowerCase →
        M1 ∉ objectPrototypeNames → M2 ∉ objectPrototypeNames →
        toLowerCase M1 = toLowerCase M2 →
        getBotResponse toLowerCase M1 = getBotResponse toLowerCase M2) := by
  have h1 : getBotResponse asciiLower "hasOwnProperty" = JSValue.inherited "hasOwnProperty" :=
    rfl
  have h2 : getBotResponse asciiLower "HASOWNPROPERTY" = JSValue.str defaultResponse := rfl
  refine ⟨rfl, h1, h2, ?_, rfl, rfl, ?_⟩
  · rw [h1, h2]
    exact fun h => JSValue.noConfusion h
  · intro lc M1 M2 hlc hM1 hM2 heq
    rw [getBotResponse_eq_scanOnly lc hlc M1 hM1, getBotResponse_eq_scanOnly lc hlc M2 hM2]
    unfold scanOnlyResponse
    rw [heq]

/-- C27: for every declared key, the message that `sendProblemMessage` displays
resolves to the answer that it shows, which is the value stored under the key. -/
theorem problem_message_consistent (toLowerCase : String → String)
    (hlc : LowerCaseOnAscii toLowerCase) (problem value : String)
    (h : (problem, value) ∈ mockResponses) :
    sendProblemMessage toLowerCase problem
        = [ Effect.addUserMessage ("I'm experiencing " ++ toLowerCase problem ++ ". Can you help?"),
            Effect.scheduleTypingIndicator 300,
            Effect.scheduleBotMessage (getBotResponse toLowerCase problem) ] ∧
      getBotResponse toLowerCase
          ("I'm experiencing " ++ toLowerCase problem ++ ". Can you help?")
        = getBotResponse toLowerCase problem ∧
      getBotResponse toLowerCase problem = JSValue.str value := by
  obtain ⟨ha, hma, -, hg, hm⟩ := keys_evaluated_at (problem, value) h
  have e : "I'm experiencing " ++ toLowerCase problem ++ ". Can you help?"
      = problemMessage asciiLower problem := by
    simp only [problemMessage, hlc problem ha]
  refine ⟨rfl, ?_, ?_⟩
  · rw [e, getBotResponse_ascii toLowerCase hlc _ hma, getBotResponse_ascii toLowerCase hlc _ ha,
      hm, hg]
  · rw [getBotResponse_ascii toLowerCase hlc _ ha, hg]

/-- Witness of C27 on the button `Stomach Pain`. -/
theorem problem_message_consistent_witness :
    getBotResponse asciiLower "I'm experiencing stomach pain. Can you help?"
        = getBotResponse asciiLower "Stomach Pain" ∧
      (mockResponses.lookup "Stomach Pain").map JSValue.str
        = some (getBotResponse asciiLower "Stomach Pain") := by
  have hmem : ("Stomach Pain", "Stomach pain can be caused by various factors including indigestion, food sensitivities, or gastrointestinal issues. Monitor your symptoms and consider dietary changes. If pain is severe, persistent, or accompanied by other symptoms, seek medical care.")
      ∈ mockResponses := by
    simp [mockResponses]
  have h := problem_message_consistent asciiLower lowerCaseOnAscii_asciiLower
    "Stomach Pain" _ hmem
  exact ⟨h.2.1, rfl⟩

end MedAI
